import Mathlib

/-!
# Alert lifecycle of gatus

A shallow embedding of `alerting/alert/alert.go` (the alert configuration and its
validation) and of `watchdog/alerting.go` (the evaluator that turns check outcomes into
provider `Send` calls), followed by theorems about them.

Conventions of the embedding:

* Go pointers to optional scalars (`*bool`, `*string`) are `Option` values, `nil` being `none`.
* Go `int` and `time.Duration` values are mathematical integers; the streak counters grow by
  one per health check, so they stay far from the ends of the machine range, and the only
  place where the range of `time.Duration` is visible, the saturating subtraction behind
  `time.Since`, is modelled explicitly.
* A `time.Time` is an integer number of nanoseconds on one time line.
* `endpoint.Alerts` is a slice of pointers to distinct alerts; it is a list, and an alert is
  identified by its position in that list.
* Log output is not modelled, so `debug` has no effect.
* The collaborators (the clock, the provider behind `Send`, the process environment) are an
  explicit `Env` argument; every `Send` call made is recorded in a log.
-/

namespace Gatus

/-! ## alerting/alert/alert.go -/

/-- The Go type `alert.Type`, a string naming the provider that handles the alert. -/
abbrev AlertType := String

/-- The two outcomes of `ValidateAndSetDefaults` other than `nil`. -/
inductive AlertError where
  | ErrAlertWithInvalidDescription
  deriving DecidableEq, Repr

/-- The Go struct `alert.Alert`. -/
structure Alert where
  type : AlertType
  Enabled : Option Bool
  FailureThreshold : Int
  Description : Option String
  SendOnResolved : Option Bool
  SuccessThreshold : Int
  ResolveKey : String
  MinimumRepeatInterval : Int
  Triggered : Bool
  deriving DecidableEq, Repr

/-- The Go function `strings.ContainsAny`: whether any code point of `chars` occurs in `s`. -/
def ContainsAny (s chars : String) : Bool :=
  s.toList.any (fun c => chars.toList.contains c)

/-- The second argument of `strings.ContainsAny` in `ValidateAndSetDefaults`: a double quote
(code point 34) followed by a backslash (code point 92). -/
def invalidDescriptionChars : String := String.mk [Char.ofNat 34, Char.ofNat 92]

/-- The method `GetDescription`: retrieves the description of the alert. -/
def Alert.GetDescription (alert : Alert) : String :=
  match alert.Description with
  | none => ""
  | some d => d

/-- The method `IsEnabled`: returns whether an alert is enabled or not; true if not set. -/
def Alert.IsEnabled (alert : Alert) : Bool :=
  match alert.Enabled with
  | none => true
  | some b => b

/-- The method `IsSendingOnResolved`: returns whether an alert is sending on resolve or not. -/
def Alert.IsSendingOnResolved (alert : Alert) : Bool :=
  match alert.SendOnResolved with
  | none => false
  | some b => b

/-- The method `ValidateAndSetDefaults`: validates the alert and sets the default value of
fields that have one. The receiver is mutated in place in Go, so the alert after the call is returned
next to the error (`none` for `nil`). -/
def Alert.ValidateAndSetDefaults (alert : Alert) : Alert × Option AlertError :=
  let alert := if alert.FailureThreshold ≤ 0 then { alert with FailureThreshold := 3 } else alert
  let alert := if alert.SuccessThreshold ≤ 0 then { alert with SuccessThreshold := 2 } else alert
  if ContainsAny alert.GetDescription invalidDescriptionChars then
    (alert, some AlertError.ErrAlertWithInvalidDescription)
  else
    (alert, none)

/-! ## Collaborators of watchdog/alerting.go -/

/-- The fields of `core.Endpoint` that `watchdog/alerting.go` reads or writes. -/
structure Endpoint where
  Name : String
  Alerts : List Alert
  NumberOfFailuresInARow : Int
  NumberOfSuccessesInARow : Int
  LastReminderSent : Int
  deriving DecidableEq, Repr

/-- The field of `core.Result` that `watchdog/alerting.go` reads. -/
structure Result where
  Success : Bool
  deriving DecidableEq, Repr

/-- An alert provider, as returned by `GetAlertingProviderByAlertType`. -/
structure AlertProvider where
  name : String
  deriving DecidableEq, Repr

/-- The part of `alerting.Config` used by the evaluator: the provider lookup, `none` being
the `nil` provider. -/
structure Config where
  GetAlertingProviderByAlertType : AlertType → Option AlertProvider

/-- What the outside world answers during one call of `HandleAlerting`. The loops visit every
alert of the endpoint once, so the answers are indexed by the position of the alert being
visited: `sendErr i` tells whether `alertProvider.Send` for alert `i` returns an error,
`sinceClock i` is the clock reading taken by `time.Since` and `nowClock i` the one taken by
`time.Now()` while alert `i` is visited. The two booleans are the comparisons of
`os.Getenv("MOCK_ALERT_PROVIDER")` and `os.Getenv("MOCK_ALERT_PROVIDER_ERROR")` with `"true"`. -/
structure Env where
  sendErr : Nat → Bool
  sinceClock : Nat → Int
  nowClock : Nat → Int
  mockAlertProvider : Bool
  mockAlertProviderError : Bool

/-- A recorded call `alertProvider.Send(endpoint, endpointAlert, result, isResolved)`, the
alert being named by its position in `endpoint.Alerts`. -/
structure SendCall where
  alert : Nat
  isResolved : Bool
  deriving DecidableEq, Repr

/-- Largest `time.Duration`. -/
def maxDuration : Int := 2 ^ 63 - 1

/-- Smallest `time.Duration`. -/
def minDuration : Int := -(2 ^ 63)

/-- The value of `time.Since(t)` when the clock reads `now`: the difference `now - t`, saturated to the
range of `time.Duration`. -/
def Since (now t : Int) : Int :=
  if now - t > maxDuration then maxDuration
  else if now - t < minDuration then minDuration
  else now - t

/-! ## watchdog/alerting.go -/

/-- State carried out of one iteration of the loop of `handleAlertsToTrigger`: the alert just
visited, `endpoint.LastReminderSent`, and the `Send` calls made by the iteration. -/
structure TriggerVisit where
  alert : Alert
  LastReminderSent : Int
  calls : List SendCall
  deriving DecidableEq, Repr

/-- Body of the loop of `handleAlertsToTrigger` for the alert at position `i`, with
`failures` the already incremented `endpoint.NumberOfFailuresInARow`. -/
def triggerAlert (env : Env) (alertingConfig : Config) (failures : Int) (i : Nat)
    (lastReminderSent : Int) (endpointAlert : Alert) : TriggerVisit :=
  if !endpointAlert.IsEnabled || decide (endpointAlert.FailureThreshold > failures) then
    ⟨endpointAlert, lastReminderSent, []⟩
  else
    let sendInitialAlert := !endpointAlert.Triggered
    let sendReminder := endpointAlert.Triggered
      && decide (endpointAlert.MinimumRepeatInterval > 0)
      && decide (Since (env.sinceClock i) lastReminderSent ≥ endpointAlert.MinimumRepeatInterval)
    if !sendInitialAlert && !sendReminder then
      ⟨endpointAlert, lastReminderSent, []⟩
    else
      match alertingConfig.GetAlertingProviderByAlertType endpointAlert.type with
      | some _ =>
        let err := if env.mockAlertProvider then env.mockAlertProviderError else env.sendErr i
        let calls := if env.mockAlertProvider then [] else [SendCall.mk i false]
        if err then
          ⟨endpointAlert, lastReminderSent, calls⟩
        else
          ⟨if sendInitialAlert then { endpointAlert with Triggered := true } else endpointAlert,
            env.nowClock i, calls⟩
      | none => ⟨endpointAlert, lastReminderSent, []⟩

/-- State after the loop of `handleAlertsToTrigger` has visited a run of alerts. -/
structure TriggerPass where
  alerts : List Alert
  LastReminderSent : Int
  calls : List SendCall
  deriving DecidableEq, Repr

/-- The loop `for _, endpointAlert := range endpoint.Alerts` of `handleAlertsToTrigger`, over
the alerts from position `i` on. -/
def triggerLoop (env : Env) (alertingConfig : Config) (failures : Int) :
    Nat → Int → List Alert → TriggerPass
  | _, lastReminderSent, [] => ⟨[], lastReminderSent, []⟩
  | i, lastReminderSent, endpointAlert :: rest =>
    let v := triggerAlert env alertingConfig failures i lastReminderSent endpointAlert
    let p := triggerLoop env alertingConfig failures (i + 1) v.LastReminderSent rest
    ⟨v.alert :: p.alerts, p.LastReminderSent, v.calls ++ p.calls⟩

/-- The function `handleAlertsToTrigger`: returns the endpoint after the call and the `Send` calls made. -/
def handleAlertsToTrigger (env : Env) (endpoint : Endpoint) (_result : Result)
    (alertingConfig : Config) (_debug : Bool) : Endpoint × List SendCall :=
  let failures := endpoint.NumberOfFailuresInARow + 1
  let p := triggerLoop env alertingConfig failures 0 endpoint.LastReminderSent endpoint.Alerts
  ({ endpoint with
      NumberOfSuccessesInARow := 0
      NumberOfFailuresInARow := failures
      Alerts := p.alerts
      LastReminderSent := p.LastReminderSent }, p.calls)

/-- Body of the loop of `handleAlertsToResolve` for the alert at position `i`, with
`successes` the already incremented `endpoint.NumberOfSuccessesInARow`: the alert after the
iteration and the `Send` calls made. The error returned by `Send` is only logged. -/
def resolveAlert (_env : Env) (alertingConfig : Config) (successes : Int) (i : Nat)
    (endpointAlert : Alert) : Alert × List SendCall :=
  if !endpointAlert.IsEnabled || !endpointAlert.Triggered
      || decide (endpointAlert.SuccessThreshold > successes) then
    (endpointAlert, [])
  else
    let endpointAlert := { endpointAlert with Triggered := false }
    if !endpointAlert.IsSendingOnResolved then
      (endpointAlert, [])
    else
      match alertingConfig.GetAlertingProviderByAlertType endpointAlert.type with
      | some _ => (endpointAlert, [SendCall.mk i true])
      | none => (endpointAlert, [])

/-- The loop `for _, endpointAlert := range endpoint.Alerts` of `handleAlertsToResolve`, over
the alerts from position `i` on. -/
def resolveLoop (env : Env) (alertingConfig : Config) (successes : Int) :
    Nat → List Alert → List Alert × List SendCall
  | _, [] => ([], [])
  | i, endpointAlert :: rest =>
    let v := resolveAlert env alertingConfig successes i endpointAlert
    let p := resolveLoop env alertingConfig successes (i + 1) rest
    (v.1 :: p.1, v.2 ++ p.2)

/-- The function `handleAlertsToResolve`: returns the endpoint after the call and the `Send` calls made. -/
def handleAlertsToResolve (env : Env) (endpoint : Endpoint) (_result : Result)
    (alertingConfig : Config) (_debug : Bool) : Endpoint × List SendCall :=
  let successes := endpoint.NumberOfSuccessesInARow + 1
  let p := resolveLoop env alertingConfig successes 0 endpoint.Alerts
  ({ endpoint with
      NumberOfSuccessesInARow := successes
      Alerts := p.1
      NumberOfFailuresInARow := 0 }, p.2)

/-- The function `HandleAlerting`: takes care of alerts to resolve and alerts to trigger based on result
success or failure; `alertingConfig = none` is the `nil` config. -/
def HandleAlerting (env : Env) (endpoint : Endpoint) (result : Result)
    (alertingConfig : Option Config) (debug : Bool) : Endpoint × List SendCall :=
  match alertingConfig with
  | none => (endpoint, [])
  | some alertingConfig =>
    if result.Success then
      handleAlertsToResolve env endpoint result alertingConfig debug
    else
      handleAlertsToTrigger env endpoint result alertingConfig debug

/-! ## Sequences of evaluations -/

/-- The arguments of one call of `HandleAlerting` other than the endpoint, together with what
the outside world answers during that call. -/
structure Call where
  env : Env
  result : Result
  alertingConfig : Option Config
  debug : Bool

/-- Consecutive calls of `HandleAlerting` on one endpoint, oldest first: the endpoint after
the last call and all `Send` calls made, in the order they were made. -/
def runCalls : List Call → Endpoint → Endpoint × List SendCall
  | [], endpoint => (endpoint, [])
  | c :: cs, endpoint =>
    let r := HandleAlerting c.env endpoint c.result c.alertingConfig c.debug
    let rs := runCalls cs r.1
    (rs.1, r.2 ++ rs.2)

/-- Number of `Send(..., isResolved)` calls in a log that were made for the alert at
position `i`. -/
def sendCount (i : Nat) (isResolved : Bool) (log : List SendCall) : Nat :=
  log.count (SendCall.mk i isResolved)

/-- One call of `HandleAlerting` with the arguments and answers held by `c`. -/
def Call.run (c : Call) (endpoint : Endpoint) : Endpoint × List SendCall :=
  HandleAlerting c.env endpoint c.result c.alertingConfig c.debug

/-- Whether the alerting config passed to a call is present and has a provider for alerts of
type `t`. -/
def Call.hasProvider (c : Call) (t : AlertType) : Bool :=
  match c.alertingConfig with
  | some cfg => (cfg.GetAlertingProviderByAlertType t).isSome
  | none => false

/-- Whether the alerting config passed to a call is present and has no provider for alerts
of type `t`. -/
def Call.lacksProvider (c : Call) (t : AlertType) : Bool :=
  match c.alertingConfig with
  | some cfg => (cfg.GetAlertingProviderByAlertType t).isNone
  | none => false

/-- The `Triggered` flag of the alert at position `i`, false when there is no such alert. -/
def triggeredAt (endpoint : Endpoint) (i : Nat) : Bool :=
  match endpoint.Alerts[i]? with
  | some a => a.Triggered
  | none => false

/-- The condition under which C17 expects an initial notification for an alert in a failing
evaluation, in the words of the claim: enabled, untriggered, failure threshold at most the new
failure streak, provider registered. -/
def dueForInitial (cfg : Config) (failures : Int) (a : Alert) : Bool :=
  a.IsEnabled && !a.Triggered && decide (a.FailureThreshold ≤ failures)
    && (cfg.GetAlertingProviderByAlertType a.type).isSome

/-- The condition under which C17 expects a resolution notification for an alert in a
successful evaluation, in the words of the claim: enabled, triggered, success threshold at
most the new success streak, sending on resolved, provider registered. -/
def dueForResolved (cfg : Config) (successes : Int) (a : Alert) : Bool :=
  a.IsEnabled && a.Triggered && decide (a.SuccessThreshold ≤ successes)
    && a.IsSendingOnResolved && (cfg.GetAlertingProviderByAlertType a.type).isSome

/-! ## Example inputs -/

/-- An alert with the default thresholds, no reminder interval, sending on resolved. -/
def exampleAlert : Alert :=
  { type := "slack", Enabled := none, FailureThreshold := 3, Description := none,
    SendOnResolved := some true, SuccessThreshold := 2, ResolveKey := "",
    MinimumRepeatInterval := 0, Triggered := false }

/-- An endpoint with `exampleAlert` as its only alert and no check made yet. -/
def exampleEndpoint : Endpoint :=
  { Name := "website", Alerts := [exampleAlert], NumberOfFailuresInARow := 0,
    NumberOfSuccessesInARow := 0, LastReminderSent := 0 }

/-- The endpoint of `exampleEndpoint` after two failed checks. -/
def twiceFailedEndpoint : Endpoint :=
  { exampleEndpoint with NumberOfFailuresInARow := 2 }

/-- Ten minutes, in nanoseconds. -/
def tenMinutes : Int := 600000000000

/-- A triggered alert with failure threshold 3 that reminds every ten minutes. -/
def remindingAlert : Alert :=
  { exampleAlert with MinimumRepeatInterval := tenMinutes, Triggered := true }

/-- An endpoint whose only alert, `remindingAlert`, has been triggered after three failed
checks, the last notification having been sent at time 0. -/
def remindingEndpoint : Endpoint :=
  { Name := "website", Alerts := [remindingAlert], NumberOfFailuresInARow := 3,
    NumberOfSuccessesInARow := 0, LastReminderSent := 0 }

/-- An endpoint whose only alert, `exampleAlert`, has been triggered. -/
def triggeredEndpoint : Endpoint :=
  { Name := "website", Alerts := [{ exampleAlert with Triggered := true }],
    NumberOfFailuresInARow := 3, NumberOfSuccessesInARow := 0, LastReminderSent := 0 }

/-- An endpoint whose only alert has been triggered and does not send on resolved. -/
def silentlyResolvingEndpoint : Endpoint :=
  { Name := "website",
    Alerts := [{ exampleAlert with SendOnResolved := none, Triggered := true }],
    NumberOfFailuresInARow := 3, NumberOfSuccessesInARow := 0, LastReminderSent := 0 }

/-- An explicitly disabled alert with thresholds 1 that reminds at every check. -/
def disabledAlert : Alert :=
  { type := "slack", Enabled := some false, FailureThreshold := 1, Description := none,
    SendOnResolved := some true, SuccessThreshold := 1, ResolveKey := "",
    MinimumRepeatInterval := 1, Triggered := true }

/-- An endpoint whose only alert is `disabledAlert`. -/
def disabledEndpoint : Endpoint :=
  { Name := "website", Alerts := [disabledAlert], NumberOfFailuresInARow := 0,
    NumberOfSuccessesInARow := 0, LastReminderSent := 0 }

/-- An alerting config with a provider for every alert type. -/
def exampleConfig : Config :=
  { GetAlertingProviderByAlertType := fun t => some ⟨t⟩ }

/-- A world whose clock reads `now`, where every `Send` returns `err` and the mock toggles
are off. -/
def worldAt (now : Int) (err : Bool) : Env :=
  { sendErr := fun _ => err, sinceClock := fun _ => now, nowClock := fun _ => now,
    mockAlertProvider := false, mockAlertProviderError := false }

/-- A failing check at clock reading `now` whose `Send` calls return no error. -/
def failingCall (now : Int) : Call :=
  { env := worldAt now false, result := ⟨false⟩, alertingConfig := some exampleConfig,
    debug := false }

/-- A failing check at clock reading `now` whose `Send` calls return an error. -/
def failingCallErr (now : Int) : Call :=
  { env := worldAt now true, result := ⟨false⟩, alertingConfig := some exampleConfig,
    debug := false }

/-- A successful check at clock reading `now` whose `Send` calls return `err`. -/
def successCall (now : Int) (err : Bool) : Call :=
  { env := worldAt now err, result := ⟨true⟩, alertingConfig := some exampleConfig,
    debug := false }

/-- An alerting config without any provider. -/
def emptyConfig : Config :=
  { GetAlertingProviderByAlertType := fun _ => none }

/-- A failing check at clock reading `now` under a config without any provider. -/
def failingCallNoProvider (now : Int) : Call :=
  { env := worldAt now false, result := ⟨false⟩, alertingConfig := some emptyConfig,
    debug := false }

/-- A world whose clock reads `now`, with `MOCK_ALERT_PROVIDER` set to `"true"` and
`MOCK_ALERT_PROVIDER_ERROR` not set to `"true"`. -/
def mockWorldAt (now : Int) : Env :=
  { sendErr := fun _ => false, sinceClock := fun _ => now, nowClock := fun _ => now,
    mockAlertProvider := true, mockAlertProviderError := false }

/-- An enabled, untriggered alert with failure threshold 1 and success threshold 1 that
sends on resolved. -/
def eagerAlert : Alert :=
  { type := "email", Enabled := some true, FailureThreshold := 1, Description := none,
    SendOnResolved := some true, SuccessThreshold := 1, ResolveKey := "",
    MinimumRepeatInterval := 0, Triggered := false }

/-- An endpoint with three alerts, after two failed checks: `eagerAlert`, `exampleAlert`
(threshold 3), and `eagerAlert` again. -/
def threeAlertEndpoint : Endpoint :=
  { Name := "website", Alerts := [eagerAlert, exampleAlert, eagerAlert],
    NumberOfFailuresInARow := 2, NumberOfSuccessesInARow := 0, LastReminderSent := 0 }

/-- The endpoint of `threeAlertEndpoint` with its three alerts triggered. -/
def threeTriggeredEndpoint : Endpoint :=
  { Name := "website",
    Alerts := [{ eagerAlert with Triggered := true }, { exampleAlert with Triggered := true },
               { eagerAlert with Triggered := true }],
    NumberOfFailuresInARow := 3, NumberOfSuccessesInARow := 0, LastReminderSent := 0 }

/-- An endpoint whose only alert is untriggered, has threshold 3 and reminds every ten
minutes, after two failed checks. -/
def aboutToRemindEndpoint : Endpoint :=
  { Name := "website", Alerts := [{ remindingAlert with Triggered := false }],
    NumberOfFailuresInARow := 2, NumberOfSuccessesInARow := 0, LastReminderSent := 0 }

/-- An endpoint whose only alert is `eagerAlert`, no check made yet. -/
def eagerEndpoint : Endpoint :=
  { Name := "website", Alerts := [eagerAlert], NumberOfFailuresInARow := 0,
    NumberOfSuccessesInARow := 0, LastReminderSent := 0 }

/-- An endpoint with two triggered alerts that remind every ten minutes, three failures in a
row, the last notification having been sent at time 0. -/
def twoRemindersEndpoint : Endpoint :=
  { Name := "website", Alerts := [remindingAlert, remindingAlert],
    NumberOfFailuresInARow := 3, NumberOfSuccessesInARow := 0, LastReminderSent := 0 }

/-- A successful check at clock reading `now` under a config without any provider, in a
world where `Send` would return an error. -/
def successCallNoProvider (now : Int) : Call :=
  { env := worldAt now true, result := ⟨true⟩, alertingConfig := some emptyConfig,
    debug := false }

/-- A failing check at clock reading `now` with `MOCK_ALERT_PROVIDER` set to `"true"`. -/
def mockFailingCall (now : Int) : Call :=
  { env := mockWorldAt now, result := ⟨false⟩, alertingConfig := some exampleConfig,
    debug := false }

/-! ## Lemmas on the loops -/

/-- An iteration of the trigger loop only makes calls `Send(..., false)` for its own alert. -/
theorem triggerAlert_calls_mem (env : Env) (cfg : Config) (f : Int) (i : Nat) (last : Int)
    (a : Alert) : ∀ c ∈ (triggerAlert env cfg f i last a).calls, c = SendCall.mk i false := by
  intro c hc
  unfold triggerAlert at hc
  simp only at hc
  cases hp : cfg.GetAlertingProviderByAlertType a.type <;> rw [hp] at hc <;>
    split_ifs at hc <;> simp_all

/-- An iteration of the resolve loop only makes calls `Send(..., true)` for its own alert. -/
theorem resolveAlert_calls_mem (env : Env) (cfg : Config) (n : Int) (i : Nat)
    (a : Alert) : ∀ c ∈ (resolveAlert env cfg n i a).2, c = SendCall.mk i true := by
  intro c hc
  unfold resolveAlert at hc
  simp only at hc
  cases hp : cfg.GetAlertingProviderByAlertType a.type <;> rw [hp] at hc <;>
    split_ifs at hc <;> simp_all

/-- The trigger loop started at position `i0` makes no call for an earlier position. -/
theorem triggerLoop_calls_ge (env : Env) (cfg : Config) (f : Int) :
    ∀ (as : List Alert) (i0 : Nat) (last : Int),
      ∀ c ∈ (triggerLoop env cfg f i0 last as).calls, i0 ≤ c.alert := by
  intro as
  induction as with
  | nil => intro i0 last c hc; simp [triggerLoop] at hc
  | cons a rest ih =>
    intro i0 last c hc
    simp only [triggerLoop, List.mem_append] at hc
    rcases hc with hc | hc
    · rw [triggerAlert_calls_mem env cfg f i0 last a c hc]
    · exact Nat.le_of_succ_le (ih _ _ c hc)

/-- The resolve loop started at position `i0` makes no call for an earlier position. -/
theorem resolveLoop_calls_ge (env : Env) (cfg : Config) (n : Int) :
    ∀ (as : List Alert) (i0 : Nat),
      ∀ c ∈ (resolveLoop env cfg n i0 as).2, i0 ≤ c.alert := by
  intro as
  induction as with
  | nil => intro i0 c hc; simp [resolveLoop] at hc
  | cons a rest ih =>
    intro i0 c hc
    simp only [resolveLoop, List.mem_append] at hc
    rcases hc with hc | hc
    · rw [resolveAlert_calls_mem env cfg n i0 a c hc]
    · exact Nat.le_of_succ_le (ih _ c hc)

/-- A log without an entry for position `k` counts zero calls for it. -/
theorem sendCount_eq_zero_of_ne (k : Nat) (b : Bool) (log : List SendCall)
    (h : ∀ c ∈ log, c.alert ≠ k) : sendCount k b log = 0 := by
  unfold sendCount
  rw [List.count_eq_zero]
  intro hmem
  exact h _ hmem rfl

/-- Counting calls in a concatenated log. -/
theorem sendCount_append (k : Nat) (b : Bool) (l₁ l₂ : List SendCall) :
    sendCount k b (l₁ ++ l₂) = sendCount k b l₁ + sendCount k b l₂ := by
  unfold sendCount
  exact List.count_append _ _ _

/-- What the trigger loop does to the alert at offset `j`: it runs the loop body on it, with
the value of `LastReminderSent` left by the alerts before it, and the calls recorded for its
position are those of that iteration. -/
theorem triggerLoop_at (env : Env) (cfg : Config) (f : Int) :
    ∀ (as : List Alert) (i0 : Nat) (last : Int) (j : Nat) (a : Alert), as[j]? = some a →
      (triggerLoop env cfg f i0 last as).alerts[j]? = some (triggerAlert env cfg f (i0 + j)
          (triggerLoop env cfg f i0 last (as.take j)).LastReminderSent a).alert ∧
      ∀ b, sendCount (i0 + j) b (triggerLoop env cfg f i0 last as).calls =
        sendCount (i0 + j) b (triggerAlert env cfg f (i0 + j)
          (triggerLoop env cfg f i0 last (as.take j)).LastReminderSent a).calls := by
  intro as
  induction as with
  | nil => intro i0 last j a h; simp at h
  | cons x rest ih =>
    intro i0 last j a h
    cases j with
    | zero =>
      simp only [List.getElem?_cons_zero, Option.some.injEq] at h
      subst h
      refine ⟨by simp [triggerLoop], fun b => ?_⟩
      simp only [triggerLoop, List.take_zero, Nat.add_zero, sendCount_append]
      rw [sendCount_eq_zero_of_ne _ _ (triggerLoop env cfg f (i0 + 1) _ rest).calls]
      · rfl
      · intro c hc
        have := triggerLoop_calls_ge env cfg f rest _ _ c hc
        omega
    | succ j =>
      simp only [List.getElem?_cons_succ] at h
      have hi := ih (i0 + 1) (triggerAlert env cfg f i0 last x).LastReminderSent j a h
      have hidx : i0 + (j + 1) = i0 + 1 + j := by omega
      refine ⟨?_, fun b => ?_⟩
      · simp only [triggerLoop, List.take_succ_cons, List.getElem?_cons_succ, hidx]
        exact hi.1
      · simp only [triggerLoop, List.take_succ_cons, sendCount_append, hidx]
        rw [sendCount_eq_zero_of_ne _ _ (triggerAlert env cfg f i0 last x).calls, Nat.zero_add]
        · exact hi.2 b
        · intro c hc
          rw [triggerAlert_calls_mem env cfg f i0 last x c hc]
          simp only
          omega

/-- What the resolve loop does to the alert at offset `j`: it runs the loop body on it, and
the calls recorded for its position are those of that iteration. -/
theorem resolveLoop_at (env : Env) (cfg : Config) (n : Int) :
    ∀ (as : List Alert) (i0 : Nat) (j : Nat) (a : Alert), as[j]? = some a →
      (resolveLoop env cfg n i0 as).1[j]? = some (resolveAlert env cfg n (i0 + j) a).1 ∧
      ∀ b, sendCount (i0 + j) b (resolveLoop env cfg n i0 as).2 =
        sendCount (i0 + j) b (resolveAlert env cfg n (i0 + j) a).2 := by
  intro as
  induction as with
  | nil => intro i0 j a h; simp at h
  | cons x rest ih =>
    intro i0 j a h
    cases j with
    | zero =>
      simp only [List.getElem?_cons_zero, Option.some.injEq] at h
      subst h
      refine ⟨by simp [resolveLoop], fun b => ?_⟩
      simp only [resolveLoop, Nat.add_zero, sendCount_append]
      rw [sendCount_eq_zero_of_ne _ _ (resolveLoop env cfg n (i0 + 1) rest).2]
      · rfl
      · intro c hc
        have := resolveLoop_calls_ge env cfg n rest _ c hc
        omega
    | succ j =>
      simp only [List.getElem?_cons_succ] at h
      have hi := ih (i0 + 1) j a h
      have hidx : i0 + (j + 1) = i0 + 1 + j := by omega
      refine ⟨?_, fun b => ?_⟩
      · simp only [resolveLoop, List.getElem?_cons_succ, hidx]
        exact hi.1
      · simp only [resolveLoop, sendCount_append, hidx]
        rw [sendCount_eq_zero_of_ne _ _ (resolveAlert env cfg n i0 x).2, Nat.zero_add]
        · exact hi.2 b
        · intro c hc
          rw [resolveAlert_calls_mem env cfg n i0 x c hc]
          simp only
          omega

/-! ## Lemmas on the loop bodies -/

/-- A disabled alert is skipped by the trigger loop. -/
theorem triggerAlert_disabled (env : Env) (cfg : Config) (f : Int) (i : Nat) (last : Int)
    (a : Alert) (hen : a.IsEnabled = false) :
    triggerAlert env cfg f i last a = ⟨a, last, []⟩ := by
  unfold triggerAlert
  simp [hen]

/-- An alert whose failure threshold is not reached is skipped by the trigger loop. -/
theorem triggerAlert_below (env : Env) (cfg : Config) (f : Int) (i : Nat) (last : Int)
    (a : Alert) (hf : f < a.FailureThreshold) :
    triggerAlert env cfg f i last a = ⟨a, last, []⟩ := by
  unfold triggerAlert
  simp [hf]

/-- A triggered alert without reminder interval is skipped by the trigger loop. -/
theorem triggerAlert_triggered_quiet (env : Env) (cfg : Config) (f : Int) (i : Nat)
    (last : Int) (a : Alert) (htr : a.Triggered = true) (hint : a.MinimumRepeatInterval ≤ 0) :
    triggerAlert env cfg f i last a = ⟨a, last, []⟩ := by
  unfold triggerAlert
  have h : ¬ (0 < a.MinimumRepeatInterval) := by omega
  simp [htr, h]

/-- The initial notification: an enabled, untriggered alert whose threshold is reached, with
a provider and the mock toggle off, gets one `Send(..., false)`, and is marked triggered
exactly when that call returns no error. -/
theorem triggerAlert_initial (env : Env) (cfg : Config) (f : Int) (i : Nat) (last : Int)
    (a : Alert) (hen : a.IsEnabled = true) (hf : a.FailureThreshold ≤ f)
    (htr : a.Triggered = false) (hp : (cfg.GetAlertingProviderByAlertType a.type).isSome = true)
    (hmock : env.mockAlertProvider = false) :
    triggerAlert env cfg f i last a =
      if env.sendErr i then ⟨a, last, [SendCall.mk i false]⟩
      else ⟨{ a with Triggered := true }, env.nowClock i, [SendCall.mk i false]⟩ := by
  unfold triggerAlert
  obtain ⟨p, hp⟩ := Option.isSome_iff_exists.1 hp
  have h : ¬ (f < a.FailureThreshold) := by omega
  simp only [hp]
  simp [hen, htr, hmock, h]

/-- The reminder: an enabled, triggered alert whose threshold is reached, with a positive
reminder interval, a provider and the mock toggle off, gets one `Send(..., false)` exactly
when `time.Since(endpoint.LastReminderSent)` is at least the interval; the alert is unchanged
and `LastReminderSent` moves to `time.Now()` exactly when that call returns no error. -/
theorem triggerAlert_reminder (env : Env) (cfg : Config) (f : Int) (i : Nat) (last : Int)
    (a : Alert) (hen : a.IsEnabled = true) (hf : a.FailureThreshold ≤ f)
    (htr : a.Triggered = true) (hd : 0 < a.MinimumRepeatInterval)
    (hp : (cfg.GetAlertingProviderByAlertType a.type).isSome = true)
    (hmock : env.mockAlertProvider = false) :
    triggerAlert env cfg f i last a =
      if a.MinimumRepeatInterval ≤ Since (env.sinceClock i) last then
        (if env.sendErr i then ⟨a, last, [SendCall.mk i false]⟩
         else ⟨a, env.nowClock i, [SendCall.mk i false]⟩)
      else ⟨a, last, []⟩ := by
  unfold triggerAlert
  obtain ⟨p, hp⟩ := Option.isSome_iff_exists.1 hp
  have h : ¬ (f < a.FailureThreshold) := by omega
  simp only [hp]
  by_cases hs : a.MinimumRepeatInterval ≤ Since (env.sinceClock i) last <;>
    simp [hen, htr, hmock, h, hd, hs]

/-- An alert that is disabled, not triggered, or whose success threshold is not reached is
skipped by the resolve loop. -/
theorem resolveAlert_skip (env : Env) (cfg : Config) (n : Int) (i : Nat) (a : Alert)
    (h : a.IsEnabled = false ∨ a.Triggered = false ∨ n < a.SuccessThreshold) :
    resolveAlert env cfg n i a = (a, []) := by
  unfold resolveAlert
  rcases h with h | h | h <;> simp [h]

/-- Resolution: an enabled, triggered alert whose success threshold is reached is marked
untriggered, and gets one `Send(..., true)` exactly when it is sending on resolved and has a
provider. -/
theorem resolveAlert_fire (env : Env) (cfg : Config) (n : Int) (i : Nat) (a : Alert)
    (hen : a.IsEnabled = true) (htr : a.Triggered = true) (hn : a.SuccessThreshold ≤ n) :
    resolveAlert env cfg n i a =
      ({ a with Triggered := false },
        if a.IsSendingOnResolved && (cfg.GetAlertingProviderByAlertType a.type).isSome
        then [SendCall.mk i true] else []) := by
  unfold resolveAlert
  have h : ¬ (n < a.SuccessThreshold) := by omega
  cases hp : cfg.GetAlertingProviderByAlertType a.type <;>
    cases hs : a.IsSendingOnResolved <;>
    simp_all [Alert.IsSendingOnResolved]

/-! ## Lemmas on whole calls -/

/-- A failing call of `HandleAlerting` seen from the alert at position `i`. -/
theorem HandleAlerting_failure_at (env : Env) (ep : Endpoint) (r : Result) (cfg : Config)
    (dbg : Bool) (i : Nat) (a : Alert) (hr : r.Success = false) (ha : ep.Alerts[i]? = some a) :
    (HandleAlerting env ep r (some cfg) dbg).1.Alerts[i]? =
      some (triggerAlert env cfg (ep.NumberOfFailuresInARow + 1) i
        (triggerLoop env cfg (ep.NumberOfFailuresInARow + 1) 0 ep.LastReminderSent
          (ep.Alerts.take i)).LastReminderSent a).alert ∧
    (∀ b, sendCount i b (HandleAlerting env ep r (some cfg) dbg).2 =
      sendCount i b (triggerAlert env cfg (ep.NumberOfFailuresInARow + 1) i
        (triggerLoop env cfg (ep.NumberOfFailuresInARow + 1) 0 ep.LastReminderSent
          (ep.Alerts.take i)).LastReminderSent a).calls) ∧
    (HandleAlerting env ep r (some cfg) dbg).1.NumberOfFailuresInARow
      = ep.NumberOfFailuresInARow + 1 ∧
    (HandleAlerting env ep r (some cfg) dbg).1.NumberOfSuccessesInARow = 0 := by
  have h := triggerLoop_at env cfg (ep.NumberOfFailuresInARow + 1) ep.Alerts 0
    ep.LastReminderSent i a ha
  simp only [Nat.zero_add] at h
  simp only [HandleAlerting, hr, handleAlertsToTrigger]
  exact ⟨h.1, h.2, rfl, rfl⟩

/-- A successful call of `HandleAlerting` seen from the alert at position `i`. -/
theorem HandleAlerting_success_at (env : Env) (ep : Endpoint) (r : Result) (cfg : Config)
    (dbg : Bool) (i : Nat) (a : Alert) (hr : r.Success = true) (ha : ep.Alerts[i]? = some a) :
    (HandleAlerting env ep r (some cfg) dbg).1.Alerts[i]? =
      some (resolveAlert env cfg (ep.NumberOfSuccessesInARow + 1) i a).1 ∧
    (∀ b, sendCount i b (HandleAlerting env ep r (some cfg) dbg).2 =
      sendCount i b (resolveAlert env cfg (ep.NumberOfSuccessesInARow + 1) i a).2) ∧
    (HandleAlerting env ep r (some cfg) dbg).1.NumberOfSuccessesInARow
      = ep.NumberOfSuccessesInARow + 1 ∧
    (HandleAlerting env ep r (some cfg) dbg).1.NumberOfFailuresInARow = 0 := by
  have h := resolveLoop_at env cfg (ep.NumberOfSuccessesInARow + 1) ep.Alerts 0 i a ha
  simp only [Nat.zero_add] at h
  simp only [HandleAlerting, hr, handleAlertsToResolve]
  exact ⟨h.1, h.2, rfl, rfl⟩

/-! ## Lemmas on sequences of calls -/

/-- Unfolding of `Call.hasProvider`. -/
theorem Call.hasProvider_iff (c : Call) (t : AlertType) :
    c.hasProvider t = true ↔
      ∃ cfg, c.alertingConfig = some cfg ∧ (cfg.GetAlertingProviderByAlertType t).isSome = true := by
  unfold Call.hasProvider
  cases c.alertingConfig <;> simp

/-- One more call in front of a sequence of calls. -/
theorem runCalls_cons (c : Call) (cs : List Call) (ep : Endpoint) :
    runCalls (c :: cs) ep =
      ((runCalls cs (HandleAlerting c.env ep c.result c.alertingConfig c.debug).1).1,
        (HandleAlerting c.env ep c.result c.alertingConfig c.debug).2
          ++ (runCalls cs (HandleAlerting c.env ep c.result c.alertingConfig c.debug).1).2) :=
  rfl

/-- Consecutive failures seen from an enabled alert without reminder interval whose provider
accepts the notification: with `k` the failure streak so far, the alert being triggered
exactly when its threshold is at most `k`, a run of failing calls sends once if the threshold
lies in the run, and never otherwise. -/
theorem failing_run_from (i : Nat) (a : Alert) (hen : a.IsEnabled = true)
    (hint : a.MinimumRepeatInterval = 0) :
    ∀ (calls : List Call) (ep : Endpoint) (k : Nat),
      ep.NumberOfFailuresInARow = k →
      ep.Alerts[i]? = some { a with Triggered := decide (a.FailureThreshold ≤ k) } →
      (∀ c ∈ calls, c.result.Success = false ∧ c.hasProvider a.type = true ∧
        c.env.mockAlertProvider = false ∧ c.env.sendErr i = false) →
      sendCount i false (runCalls calls ep).2 =
        (if (k : Int) < a.FailureThreshold ∧ a.FailureThreshold ≤ ((k + calls.length : Nat) : Int)
          then 1 else 0) ∧
      (runCalls calls ep).1.Alerts[i]? =
        some { a with Triggered := decide (a.FailureThreshold ≤ ((k + calls.length : Nat) : Int)) } := by
  intro calls
  induction calls with
  | nil =>
    intro ep k _ ha _
    refine ⟨?_, by simpa [runCalls] using ha⟩
    have : ¬ ((k : Int) < a.FailureThreshold ∧ a.FailureThreshold ≤ ((k + 0 : Nat) : Int)) := by
      simp only [Nat.add_zero]; omega
    simp only [List.length_nil, if_neg this]
    rfl
  | cons c cs ih =>
    intro ep k hk ha hcalls
    obtain ⟨hr, hprov, hmock, herr⟩ := hcalls c (List.mem_cons_self _ _)
    obtain ⟨cfg, hcfg, hp⟩ := (Call.hasProvider_iff c a.type).1 hprov
    have hrest : ∀ c ∈ cs, c.result.Success = false ∧ c.hasProvider a.type = true ∧
        c.env.mockAlertProvider = false ∧ c.env.sendErr i = false :=
      fun c hc => hcalls c (List.mem_cons_of_mem _ hc)
    have H := HandleAlerting_failure_at c.env ep c.result cfg c.debug i _ hr ha
    rw [← hcfg] at H
    obtain ⟨H1, H2, H3, -⟩ := H
    rw [hk] at H1 H2 H3
    have hk1 : (HandleAlerting c.env ep c.result c.alertingConfig c.debug).1.NumberOfFailuresInARow
        = ((k + 1 : Nat) : Int) := by rw [H3]; push_cast; rfl
    have hlen : k + (c :: cs).length = (k + 1) + cs.length := by
      simp only [List.length_cons]; omega
    rw [runCalls_cons, hlen]
    simp only [sendCount_append]
    by_cases h1 : a.FailureThreshold ≤ (k : Int)
    · -- already triggered
      rw [triggerAlert_triggered_quiet _ _ _ _ _ _ (by simp [h1]) (by simp [hint])] at H1 H2
      have h2 : a.FailureThreshold ≤ (k : Int) + 1 := by omega
      have ha2 : (HandleAlerting c.env ep c.result c.alertingConfig c.debug).1.Alerts[i]? =
          some { a with Triggered := decide (a.FailureThreshold ≤ ((k + 1 : Nat) : Int)) } := by
        rw [H1]; simp [h1, h2]
      obtain ⟨I1, I2⟩ := ih _ (k + 1) hk1 ha2 hrest
      refine ⟨?_, I2⟩
      rw [I1, H2 false]
      have e1 : ¬ ((k : Int) < a.FailureThreshold ∧
          a.FailureThreshold ≤ ((k + 1 + cs.length : Nat) : Int)) := by omega
      have e2 : ¬ (((k + 1 : Nat) : Int) < a.FailureThreshold ∧
          a.FailureThreshold ≤ ((k + 1 + cs.length : Nat) : Int)) := by push_cast; omega
      rw [if_neg e1, if_neg e2]
      rfl
    · by_cases h2 : a.FailureThreshold ≤ (k : Int) + 1
      · -- the threshold is reached by this call
        rw [triggerAlert_initial _ _ _ _ _ _ (by simpa using hen)
          (by simpa using h2) (by simp [h1]) (by simpa using hp) hmock,
          herr] at H1 H2
        simp only [Bool.false_eq_true, if_false] at H1 H2
        have ha2 : (HandleAlerting c.env ep c.result c.alertingConfig c.debug).1.Alerts[i]? =
            some { a with Triggered := decide (a.FailureThreshold ≤ ((k + 1 : Nat) : Int)) } := by
          rw [H1]; simp [h2]
        obtain ⟨I1, I2⟩ := ih _ (k + 1) hk1 ha2 hrest
        refine ⟨?_, I2⟩
        rw [I1, H2 false]
        have e1 : ((k : Int) < a.FailureThreshold ∧
            a.FailureThreshold ≤ ((k + 1 + cs.length : Nat) : Int)) := by
          push_cast; omega
        have e2 : ¬ (((k + 1 : Nat) : Int) < a.FailureThreshold ∧
            a.FailureThreshold ≤ ((k + 1 + cs.length : Nat) : Int)) := by push_cast; omega
        rw [if_pos e1, if_neg e2]
        simp [sendCount]
      · -- the threshold is still ahead
        rw [triggerAlert_below _ _ _ _ _ _ (by simp only; omega)] at H1 H2
        have ha2 : (HandleAlerting c.env ep c.result c.alertingConfig c.debug).1.Alerts[i]? =
            some { a with Triggered := decide (a.FailureThreshold ≤ ((k + 1 : Nat) : Int)) } := by
          rw [H1]; simp [h1, h2]
        obtain ⟨I1, I2⟩ := ih _ (k + 1) hk1 ha2 hrest
        refine ⟨?_, I2⟩
        rw [I1, H2 false]
        simp only [sendCount, List.count_nil, Nat.zero_add]
        congr 1
        apply propext
        push_cast
        constructor <;> rintro ⟨x, y⟩ <;> constructor <;> omega

/-- A sequence of calls followed by another sequence of calls. -/
theorem runCalls_append (xs ys : List Call) :
    ∀ ep : Endpoint, runCalls (xs ++ ys) ep =
      ((runCalls ys (runCalls xs ep).1).1, (runCalls xs ep).2 ++ (runCalls ys (runCalls xs ep).1).2) := by
  induction xs with
  | nil => intro ep; simp [runCalls]
  | cons x xs ih =>
    intro ep
    simp only [List.cons_append, runCalls_cons, ih, List.append_assoc]

/-- Calls counted after one more evaluation at the end of a sequence. -/
theorem sendCount_runCalls_snoc (i : Nat) (b : Bool) (pre : List Call) (c : Call)
    (ep : Endpoint) :
    sendCount i b (runCalls (pre ++ [c]) ep).2 =
      sendCount i b (runCalls pre ep).2 +
        sendCount i b
          (HandleAlerting c.env (runCalls pre ep).1 c.result c.alertingConfig c.debug).2 := by
  rw [runCalls_append]
  simp only [runCalls_cons, runCalls, List.append_nil, sendCount_append]

/-- Failing calls whose `Send` for alert `i` returns an error, seen from an enabled,
untriggered alert whose threshold is reached: every call sends, and the alert stays as it is. -/
theorem failing_run_errors (i : Nat) (a : Alert) (hen : a.IsEnabled = true)
    (htr : a.Triggered = false) :
    ∀ (calls : List Call) (ep : Endpoint),
      ep.Alerts[i]? = some a →
      a.FailureThreshold ≤ ep.NumberOfFailuresInARow + 1 →
      (∀ c ∈ calls, c.result.Success = false ∧ c.hasProvider a.type = true ∧
        c.env.mockAlertProvider = false ∧ c.env.sendErr i = true) →
      sendCount i false (runCalls calls ep).2 = calls.length ∧
      (runCalls calls ep).1.Alerts[i]? = some a ∧
      a.FailureThreshold ≤ (runCalls calls ep).1.NumberOfFailuresInARow + 1 := by
  intro calls
  induction calls with
  | nil => intro ep ha hth _; exact ⟨rfl, ha, hth⟩
  | cons c cs ih =>
    intro ep ha hth hcalls
    obtain ⟨hr, hprov, hmock, herr⟩ := hcalls c (List.mem_cons_self _ _)
    obtain ⟨cfg, hcfg, hp⟩ := (Call.hasProvider_iff c a.type).1 hprov
    obtain ⟨H1, H2, H3, -⟩ := HandleAlerting_failure_at c.env ep c.result cfg c.debug i a hr ha
    rw [← hcfg] at H1 H2 H3
    rw [triggerAlert_initial _ _ _ _ _ _ hen hth htr hp hmock, herr] at H1 H2
    simp only [if_true] at H1 H2
    obtain ⟨I1, I2, I3⟩ := ih _ H1 (by rw [H3]; omega)
      (fun c hc => hcalls c (List.mem_cons_of_mem _ hc))
    rw [runCalls_cons]
    refine ⟨?_, I2, I3⟩
    simp only [sendCount_append, I1, H2 false, List.length_cons]
    simp [sendCount]
    omega

/-- A log that counts no call of either kind for position `i` holds no call for it. -/
theorem no_call_of_sendCount (i : Nat) (log : List SendCall)
    (h : ∀ b, sendCount i b log = 0) : ∀ c ∈ log, c.alert ≠ i := by
  intro c hc hi
  have h0 := h c.isResolved
  unfold sendCount at h0
  rw [List.count_eq_zero] at h0
  apply h0
  cases c
  simp only at hi
  subst hi
  exact hc

/-- Consecutive successes seen from an enabled alert that sends on resolved and has a
provider: with `k` the success streak so far, the alert being triggered exactly when `k` is
below its success threshold, a run of successful calls sends one `Send(..., true)` if the
threshold lies in the run, and none otherwise, whatever `Send` returns. -/
theorem success_run_from (i : Nat) (a : Alert) (hen : a.IsEnabled = true)
    (hsend : a.IsSendingOnResolved = true) :
    ∀ (calls : List Call) (ep : Endpoint) (k : Nat),
      ep.NumberOfSuccessesInARow = k →
      ep.Alerts[i]? = some { a with Triggered := decide ((k : Int) < a.SuccessThreshold) } →
      (∀ c ∈ calls, c.result.Success = true ∧ c.hasProvider a.type = true) →
      sendCount i true (runCalls calls ep).2 =
        (if (k : Int) < a.SuccessThreshold ∧ a.SuccessThreshold ≤ ((k + calls.length : Nat) : Int)
          then 1 else 0) ∧
      (runCalls calls ep).1.Alerts[i]? =
        some { a with Triggered := decide (((k + calls.length : Nat) : Int) < a.SuccessThreshold) } := by
  intro calls
  induction calls with
  | nil =>
    intro ep k _ ha _
    refine ⟨?_, by simpa [runCalls] using ha⟩
    have : ¬ ((k : Int) < a.SuccessThreshold ∧ a.SuccessThreshold ≤ ((k + 0 : Nat) : Int)) := by
      simp only [Nat.add_zero]; omega
    simp only [List.length_nil, if_neg this]
    rfl
  | cons c cs ih =>
    intro ep k hk ha hcalls
    obtain ⟨hr, hprov⟩ := hcalls c (List.mem_cons_self _ _)
    obtain ⟨cfg, hcfg, hp⟩ := (Call.hasProvider_iff c a.type).1 hprov
    have hrest : ∀ c ∈ cs, c.result.Success = true ∧ c.hasProvider a.type = true :=
      fun c hc => hcalls c (List.mem_cons_of_mem _ hc)
    have H := HandleAlerting_success_at c.env ep c.result cfg c.debug i _ hr ha
    rw [← hcfg] at H
    obtain ⟨H1, H2, H3, -⟩ := H
    rw [hk] at H1 H2 H3
    have hk1 : (HandleAlerting c.env ep c.result c.alertingConfig c.debug).1.NumberOfSuccessesInARow
        = ((k + 1 : Nat) : Int) := by rw [H3]; push_cast; rfl
    have hlen : k + (c :: cs).length = (k + 1) + cs.length := by
      simp only [List.length_cons]; omega
    rw [runCalls_cons, hlen]
    simp only [sendCount_append]
    by_cases h1 : (k : Int) < a.SuccessThreshold
    · by_cases h2 : a.SuccessThreshold ≤ (k : Int) + 1
      · -- the threshold is reached by this call
        rw [resolveAlert_fire _ _ _ _ _ (by simpa using hen) (by simp [h1])
          (by simpa using h2)] at H1 H2
        have hs : ({ a with Triggered := decide ((k : Int) < a.SuccessThreshold) } :
            Alert).IsSendingOnResolved = true := by simpa [Alert.IsSendingOnResolved] using hsend
        have hp2 : (cfg.GetAlertingProviderByAlertType ({ a with
            Triggered := decide ((k : Int) < a.SuccessThreshold) } : Alert).type).isSome = true :=
          hp
        rw [hs, hp2] at H2
        simp only [Bool.and_self, if_true] at H1 H2
        have h3 : ¬ (((k + 1 : Nat) : Int) < a.SuccessThreshold) := by push_cast; omega
        have ha2 : (HandleAlerting c.env ep c.result c.alertingConfig c.debug).1.Alerts[i]? =
            some { a with Triggered := decide (((k + 1 : Nat) : Int) < a.SuccessThreshold) } := by
          rw [H1, decide_eq_false h3]
        obtain ⟨I1, I2⟩ := ih _ (k + 1) hk1 ha2 hrest
        refine ⟨?_, I2⟩
        rw [I1, H2 true]
        have e1 : ((k : Int) < a.SuccessThreshold ∧
            a.SuccessThreshold ≤ ((k + 1 + cs.length : Nat) : Int)) := by
          push_cast; omega
        have e2 : ¬ (((k + 1 : Nat) : Int) < a.SuccessThreshold ∧
            a.SuccessThreshold ≤ ((k + 1 + cs.length : Nat) : Int)) := by push_cast; omega
        rw [if_pos e1, if_neg e2]
        simp [sendCount]
      · -- the threshold is still ahead
        rw [resolveAlert_skip _ _ _ _ _ (Or.inr (Or.inr (by simp only; omega)))] at H1 H2
        have h3 : ((k + 1 : Nat) : Int) < a.SuccessThreshold := by push_cast; omega
        have ha2 : (HandleAlerting c.env ep c.result c.alertingConfig c.debug).1.Alerts[i]? =
            some { a with Triggered := decide (((k + 1 : Nat) : Int) < a.SuccessThreshold) } := by
          rw [H1, decide_eq_true h3, decide_eq_true h1]
        obtain ⟨I1, I2⟩ := ih _ (k + 1) hk1 ha2 hrest
        refine ⟨?_, I2⟩
        rw [I1, H2 true]
        simp only [sendCount, List.count_nil, Nat.zero_add]
        congr 1
        apply propext
        push_cast
        constructor <;> rintro ⟨x, y⟩ <;> constructor <;> omega
    · -- already resolved
      rw [resolveAlert_skip _ _ _ _ _ (Or.inr (Or.inl (by simp [h1])))] at H1 H2
      have h3 : ¬ (((k + 1 : Nat) : Int) < a.SuccessThreshold) := by push_cast; omega
      have ha2 : (HandleAlerting c.env ep c.result c.alertingConfig c.debug).1.Alerts[i]? =
          some { a with Triggered := decide (((k + 1 : Nat) : Int) < a.SuccessThreshold) } := by
        rw [H1, decide_eq_false h3, decide_eq_false h1]
      obtain ⟨I1, I2⟩ := ih _ (k + 1) hk1 ha2 hrest
      refine ⟨?_, I2⟩
      rw [I1, H2 true]
      have e1 : ¬ ((k : Int) < a.SuccessThreshold ∧
          a.SuccessThreshold ≤ ((k + 1 + cs.length : Nat) : Int)) := by omega
      have e2 : ¬ (((k + 1 : Nat) : Int) < a.SuccessThreshold ∧
          a.SuccessThreshold ≤ ((k + 1 + cs.length : Nat) : Int)) := by push_cast; omega
      rw [if_neg e1, if_neg e2]
      rfl

/-- A call of `HandleAlerting` seen from a disabled alert: the alert is left as it is and no
call is made for it, whatever the result and the config. -/
theorem HandleAlerting_disabled (env : Env) (ep : Endpoint) (r : Result) (cfg : Option Config)
    (dbg : Bool) (i : Nat) (a : Alert) (ha : ep.Alerts[i]? = some a)
    (hen : a.IsEnabled = false) :
    (HandleAlerting env ep r cfg dbg).1.Alerts[i]? = some a ∧
    ∀ b, sendCount i b (HandleAlerting env ep r cfg dbg).2 = 0 := by
  cases cfg with
  | none => exact ⟨ha, fun b => rfl⟩
  | some cfg =>
    cases hr : r.Success with
    | true =>
      obtain ⟨H1, H2, -, -⟩ := HandleAlerting_success_at env ep r cfg dbg i a hr ha
      rw [resolveAlert_skip _ _ _ _ _ (Or.inl hen)] at H1 H2
      exact ⟨H1, fun b => by rw [H2 b]; rfl⟩
    | false =>
      obtain ⟨H1, H2, -, -⟩ := HandleAlerting_failure_at env ep r cfg dbg i a hr ha
      rw [triggerAlert_disabled _ _ _ _ _ _ hen] at H1 H2
      exact ⟨H1, fun b => by rw [H2 b]; rfl⟩

/-- Any sequence of calls seen from a disabled alert: no call is ever made for it. -/
theorem disabled_run_silent (i : Nat) (a : Alert) (hen : a.IsEnabled = false) :
    ∀ (calls : List Call) (ep : Endpoint), ep.Alerts[i]? = some a →
      ∀ b, sendCount i b (runCalls calls ep).2 = 0 := by
  intro calls
  induction calls with
  | nil => intro ep _ b; rfl
  | cons c cs ih =>
    intro ep ha b
    obtain ⟨H1, H2⟩ := HandleAlerting_disabled c.env ep c.result c.alertingConfig c.debug i a ha hen
    rw [runCalls_cons]
    simp only [sendCount_append, H2 b, ih _ H1 b]

/-- Consecutive successes seen from an enabled alert that does not send on resolved: no call
is made for it, and it stays triggered exactly as long as the success streak is below its
success threshold. -/
theorem success_run_not_sending (i : Nat) :
    ∀ (calls : List Call) (ep : Endpoint) (a : Alert),
      ep.Alerts[i]? = some a → a.IsEnabled = true → a.IsSendingOnResolved = false →
      (∀ c ∈ calls, c.result.Success = true ∧ c.alertingConfig.isSome = true) →
      (∀ b, sendCount i b (runCalls calls ep).2 = 0) ∧
      (runCalls calls ep).1.Alerts[i]? = some { a with Triggered := (a.Triggered &&
        decide (calls.length = 0 ∨
          ep.NumberOfSuccessesInARow + (calls.length : Int) < a.SuccessThreshold)) } := by
  intro calls
  induction calls with
  | nil =>
    intro ep a ha _ _ _
    refine ⟨fun b => rfl, ?_⟩
    simpa [runCalls] using ha
  | cons c cs ih =>
    intro ep a ha hen hs hcalls
    obtain ⟨hr, hcfg⟩ := hcalls c (List.mem_cons_self _ _)
    obtain ⟨cfg, hcfg⟩ := Option.isSome_iff_exists.1 hcfg
    have hrest : ∀ c ∈ cs, c.result.Success = true ∧ c.alertingConfig.isSome = true :=
      fun c hc => hcalls c (List.mem_cons_of_mem _ hc)
    obtain ⟨H1, H2, H3, -⟩ := HandleAlerting_success_at c.env ep c.result cfg c.debug i a hr ha
    rw [← hcfg] at H1 H2 H3
    rw [runCalls_cons]
    simp only [sendCount_append]
    by_cases hfire : a.Triggered = true ∧ a.SuccessThreshold ≤ ep.NumberOfSuccessesInARow + 1
    · rw [resolveAlert_fire _ _ _ _ _ hen hfire.1 hfire.2, hs] at H1 H2
      simp only [Bool.false_and, Bool.false_eq_true, if_false] at H1 H2
      obtain ⟨I1, I2⟩ := ih _ _ H1 hen hs hrest
      refine ⟨fun b => by rw [H2 b, I1 b]; rfl, ?_⟩
      rw [I2]
      have hth := hfire.2
      have e : ¬ ((c :: cs).length = 0 ∨
          ep.NumberOfSuccessesInARow + ((c :: cs).length : Int) < a.SuccessThreshold) := by
        simp only [List.length_cons, Nat.cast_add, Nat.cast_one]
        rintro (h | h) <;> omega
      rw [decide_eq_false e]
      simp
    · have hskip : a.Triggered = false ∨ ep.NumberOfSuccessesInARow + 1 < a.SuccessThreshold := by
        by_cases ht : a.Triggered = true
        · right
          by_contra hlt
          exact hfire ⟨ht, by omega⟩
        · left; simpa using ht
      rw [resolveAlert_skip _ _ _ _ _ (Or.inr hskip)] at H1 H2
      obtain ⟨I1, I2⟩ := ih _ _ H1 hen hs hrest
      refine ⟨fun b => by rw [H2 b, I1 b]; rfl, ?_⟩
      rw [I2, H3]
      rcases hskip with ht | hlt
      · simp [ht]
      · have e : decide (cs.length = 0 ∨
            ep.NumberOfSuccessesInARow + 1 + (cs.length : Int) < a.SuccessThreshold) =
            decide ((c :: cs).length = 0 ∨
              ep.NumberOfSuccessesInARow + ((c :: cs).length : Int) < a.SuccessThreshold) := by
          apply decide_eq_decide.2
          simp only [List.length_cons, Nat.cast_add, Nat.cast_one]
          constructor
          · rintro (h | h)
            · right; omega
            · right; omega
          · rintro (h | h)
            · omega
            · right; omega
        simp only [e]

/-- Successful calls with a config present add one to the success streak each. -/
theorem success_run_streak :
    ∀ (calls : List Call) (ep : Endpoint),
      (∀ c ∈ calls, c.result.Success = true ∧ c.alertingConfig.isSome = true) →
      (runCalls calls ep).1.NumberOfSuccessesInARow
        = ep.NumberOfSuccessesInARow + (calls.length : Int) := by
  intro calls
  induction calls with
  | nil => intro ep _; simp [runCalls]
  | cons c cs ih =>
    intro ep hcalls
    obtain ⟨hr, hcfg⟩ := hcalls c (List.mem_cons_self _ _)
    obtain ⟨cfg, hcfg⟩ := Option.isSome_iff_exists.1 hcfg
    rw [runCalls_cons]
    simp only
    rw [ih _ (fun c hc => hcalls c (List.mem_cons_of_mem _ hc))]
    simp only [HandleAlerting, hcfg, hr, handleAlertsToResolve, if_true, List.length_cons,
      Nat.cast_add, Nat.cast_one]
    omega

/-- Comparing `time.Since` with a positive duration is comparing the plain difference. -/
theorem Since_ge_iff (now t d : Int) (hd : 0 < d) (hmax : d ≤ maxDuration) :
    d ≤ Since now t ↔ d ≤ now - t := by
  unfold Since
  unfold maxDuration at hmax
  simp only [maxDuration, minDuration]
  split_ifs <;> constructor <;> intro h <;> omega

/-- Unfolding of `Call.lacksProvider`. -/
theorem Call.lacksProvider_iff (c : Call) (t : AlertType) :
    c.lacksProvider t = true ↔
      ∃ cfg, c.alertingConfig = some cfg ∧ cfg.GetAlertingProviderByAlertType t = none := by
  unfold Call.lacksProvider
  cases c.alertingConfig <;> simp

/-- Without a provider for its type, an alert is left as it is by the trigger loop, and so is
`LastReminderSent`, and no call is made. -/
theorem triggerAlert_no_provider (env : Env) (cfg : Config) (f : Int) (i : Nat) (last : Int)
    (a : Alert) (hp : cfg.GetAlertingProviderByAlertType a.type = none) :
    triggerAlert env cfg f i last a = ⟨a, last, []⟩ := by
  unfold triggerAlert
  simp only [hp]
  split_ifs <;> rfl

/-- Consecutive failures under configs without a provider for the type of alert `i`: the alert
is never touched, no call is made for it, and the failure streak grows by one per call. -/
theorem failing_run_no_provider (i : Nat) (a : Alert) :
    ∀ (calls : List Call) (ep : Endpoint), ep.Alerts[i]? = some a →
      (∀ c ∈ calls, c.result.Success = false ∧ c.lacksProvider a.type = true) →
      (runCalls calls ep).1.Alerts[i]? = some a ∧
      (∀ b, sendCount i b (runCalls calls ep).2 = 0) ∧
      (runCalls calls ep).1.NumberOfFailuresInARow
        = ep.NumberOfFailuresInARow + (calls.length : Int) := by
  intro calls
  induction calls with
  | nil => intro ep ha _; exact ⟨ha, fun b => rfl, by simp [runCalls]⟩
  | cons c cs ih =>
    intro ep ha hcalls
    obtain ⟨hr, hlack⟩ := hcalls c (List.mem_cons_self _ _)
    obtain ⟨cfg, hcfg, hp⟩ := (Call.lacksProvider_iff c a.type).1 hlack
    obtain ⟨H1, H2, H3, -⟩ := HandleAlerting_failure_at c.env ep c.result cfg c.debug i a hr ha
    rw [← hcfg] at H1 H2 H3
    rw [triggerAlert_no_provider _ _ _ _ _ _ hp] at H1 H2
    obtain ⟨I1, I2, I3⟩ := ih _ H1 (fun c hc => hcalls c (List.mem_cons_of_mem _ hc))
    rw [runCalls_cons]
    refine ⟨I1, fun b => ?_, ?_⟩
    · simp only [sendCount_append, H2 b, I2 b]
      rfl
    · simp only [I3, H3, List.length_cons, Nat.cast_add, Nat.cast_one]
      omega

/-- The counters after one call of `HandleAlerting` with a config present. -/
theorem HandleAlerting_counters (env : Env) (ep : Endpoint) (r : Result) (cfg : Config)
    (dbg : Bool) :
    (HandleAlerting env ep r (some cfg) dbg).1.NumberOfSuccessesInARow
      = (if r.Success then ep.NumberOfSuccessesInARow + 1 else 0) ∧
    (HandleAlerting env ep r (some cfg) dbg).1.NumberOfFailuresInARow
      = (if r.Success then 0 else ep.NumberOfFailuresInARow + 1) := by
  cases hr : r.Success <;> simp [HandleAlerting, hr, handleAlertsToTrigger, handleAlertsToResolve]

/-- After any sequence of calls started with one of the two counters at 0, one of the two
counters is 0. -/
theorem run_counters_exclusive :
    ∀ (calls : List Call) (ep : Endpoint),
      (ep.NumberOfSuccessesInARow = 0 ∨ ep.NumberOfFailuresInARow = 0) →
      (runCalls calls ep).1.NumberOfSuccessesInARow = 0 ∨
        (runCalls calls ep).1.NumberOfFailuresInARow = 0 := by
  intro calls
  induction calls with
  | nil => intro ep h; exact h
  | cons c cs ih =>
    intro ep h
    rw [runCalls_cons]
    apply ih
    cases hc : c.alertingConfig with
    | none => exact h
    | some cfg =>
      obtain ⟨h1, h2⟩ := HandleAlerting_counters c.env ep c.result cfg c.debug
      cases hr : c.result.Success
      · left; rw [h1, hr]; rfl
      · right; rw [h2, hr]; rfl

/-- The trigger loop returns as many alerts as it was given. -/
theorem triggerLoop_length (env : Env) (cfg : Config) (f : Int) :
    ∀ (as : List Alert) (i0 : Nat) (last : Int),
      (triggerLoop env cfg f i0 last as).alerts.length = as.length := by
  intro as
  induction as with
  | nil => intro i0 last; rfl
  | cons a rest ih => intro i0 last; simp [triggerLoop, ih]

/-- The resolve loop returns as many alerts as it was given. -/
theorem resolveLoop_length (env : Env) (cfg : Config) (n : Int) :
    ∀ (as : List Alert) (i0 : Nat), (resolveLoop env cfg n i0 as).1.length = as.length := by
  intro as
  induction as with
  | nil => intro i0; rfl
  | cons a rest ih => intro i0; simp [resolveLoop, ih]

/-- A call of `HandleAlerting` keeps the number of alerts of the endpoint. -/
theorem HandleAlerting_length (env : Env) (ep : Endpoint) (r : Result) (cfg : Option Config)
    (dbg : Bool) : (HandleAlerting env ep r cfg dbg).1.Alerts.length = ep.Alerts.length := by
  cases cfg with
  | none => rfl
  | some cfg =>
    cases hr : r.Success
    · simp [HandleAlerting, hr, handleAlertsToTrigger, triggerLoop_length]
    · simp [HandleAlerting, hr, handleAlertsToResolve, resolveLoop_length]

/-- An alert that `triggeredAt` reports as triggered exists. -/
theorem exists_of_triggeredAt (ep : Endpoint) (i : Nat) (h : triggeredAt ep i = true) :
    ∃ a, ep.Alerts[i]? = some a ∧ a.Triggered = true := by
  unfold triggeredAt at h
  cases ha : ep.Alerts[i]? with
  | none => rw [ha] at h; simp at h
  | some a => rw [ha] at h; exact ⟨a, rfl, h⟩

/-- Reading `triggeredAt` at a position that holds an alert. -/
theorem triggeredAt_of_get (ep : Endpoint) (i : Nat) (a : Alert) (ha : ep.Alerts[i]? = some a) :
    triggeredAt ep i = a.Triggered := by
  unfold triggeredAt
  rw [ha]

/-- With the mock toggle off, an iteration of the trigger loop that turns an untriggered
alert into a triggered one has made the `Send` call, and that call returned no error. -/
theorem triggerAlert_triggered_after (env : Env) (cfg : Config) (f : Int) (i : Nat)
    (last : Int) (a : Alert) (hmock : env.mockAlertProvider = false)
    (htr : a.Triggered = false)
    (hafter : (triggerAlert env cfg f i last a).alert.Triggered = true) :
    (triggerAlert env cfg f i last a).calls = [SendCall.mk i false] ∧ env.sendErr i = false := by
  unfold triggerAlert at hafter ⊢
  cases hp : cfg.GetAlertingProviderByAlertType a.type <;>
    cases herr : env.sendErr i <;>
    simp only [hp, hmock, herr, htr, Bool.false_eq_true, if_false, if_true] at hafter ⊢ <;>
    split_ifs at hafter ⊢ <;> simp_all

/-- The resolve loop never turns an untriggered alert into a triggered one. -/
theorem resolveAlert_untriggered (env : Env) (cfg : Config) (n : Int) (i : Nat) (a : Alert)
    (htr : a.Triggered = false) : (resolveAlert env cfg n i a).1.Triggered = false := by
  rw [resolveAlert_skip _ _ _ _ _ (Or.inr (Or.inl htr))]
  exact htr

/-- An iteration of the trigger loop makes at most one call. -/
theorem triggerAlert_calls_cases (env : Env) (cfg : Config) (f : Int) (i : Nat) (last : Int)
    (a : Alert) : (triggerAlert env cfg f i last a).calls = [] ∨
      (triggerAlert env cfg f i last a).calls = [SendCall.mk i false] := by
  unfold triggerAlert
  cases hp : cfg.GetAlertingProviderByAlertType a.type <;>
    cases hm : env.mockAlertProvider <;>
    simp only [Bool.false_eq_true, if_false, if_true] <;>
    split_ifs <;> simp

/-- The resolve loop calls `Send` for an alert exactly when the alert is due for a resolution
notification. -/
theorem resolveAlert_calls (env : Env) (cfg : Config) (n : Int) (i : Nat) (a : Alert) :
    (resolveAlert env cfg n i a).2 =
      if dueForResolved cfg n a then [SendCall.mk i true] else [] := by
  by_cases h : a.IsEnabled = true ∧ a.Triggered = true ∧ a.SuccessThreshold ≤ n
  · obtain ⟨hen, htr, hn⟩ := h
    rw [resolveAlert_fire _ _ _ _ _ hen htr hn]
    unfold dueForResolved
    simp only [hen, htr, hn, decide_True, Bool.and_self, Bool.true_and, Bool.and_eq_true]
  · have hskip : a.IsEnabled = false ∨ a.Triggered = false ∨ n < a.SuccessThreshold := by
      by_cases hen : a.IsEnabled = true
      · by_cases htr : a.Triggered = true
        · exact Or.inr (Or.inr (by by_contra hlt; exact h ⟨hen, htr, by omega⟩))
        · exact Or.inr (Or.inl (by simpa using htr))
      · exact Or.inl (by simpa using hen)
    rw [resolveAlert_skip _ _ _ _ _ hskip]
    have hdue : dueForResolved cfg n a = false := by
      unfold dueForResolved
      rcases hskip with h1 | h1 | h1
      · simp [h1]
      · simp [h1]
      · have : ¬ a.SuccessThreshold ≤ n := by omega
        simp [this]
    rw [hdue]
    rfl

/-- An iteration of the resolve loop makes at most one call. -/
theorem resolveAlert_calls_cases (env : Env) (cfg : Config) (n : Int) (i : Nat) (a : Alert) :
    (resolveAlert env cfg n i a).2 = [] ∨ (resolveAlert env cfg n i a).2 = [SendCall.mk i true] := by
  rw [resolveAlert_calls]
  split_ifs
  · exact Or.inr rfl
  · exact Or.inl rfl

/-- The calls of the trigger loop are made in the order of the alerts. -/
theorem triggerLoop_calls_pairwise (env : Env) (cfg : Config) (f : Int) :
    ∀ (as : List Alert) (i0 : Nat) (last : Int),
      (triggerLoop env cfg f i0 last as).calls.Pairwise (fun c d => c.alert < d.alert) := by
  intro as
  induction as with
  | nil => intro i0 last; simp [triggerLoop]
  | cons a rest ih =>
    intro i0 last
    simp only [triggerLoop]
    rw [List.pairwise_append]
    refine ⟨?_, ih _ _, ?_⟩
    · rcases triggerAlert_calls_cases env cfg f i0 last a with h | h <;> rw [h] <;> simp
    · intro c hc d hd
      rw [triggerAlert_calls_mem env cfg f i0 last a c hc]
      exact triggerLoop_calls_ge env cfg f rest _ _ d hd

/-- The calls of the resolve loop are made in the order of the alerts. -/
theorem resolveLoop_calls_pairwise (env : Env) (cfg : Config) (n : Int) :
    ∀ (as : List Alert) (i0 : Nat),
      (resolveLoop env cfg n i0 as).2.Pairwise (fun c d => c.alert < d.alert) := by
  intro as
  induction as with
  | nil => intro i0; simp [resolveLoop]
  | cons a rest ih =>
    intro i0
    simp only [resolveLoop]
    rw [List.pairwise_append]
    refine ⟨?_, ih _, ?_⟩
    · rcases resolveAlert_calls_cases env cfg n i0 a with h | h <;> rw [h] <;> simp
    · intro c hc d hd
      rw [resolveAlert_calls_mem env cfg n i0 a c hc]
      exact resolveLoop_calls_ge env cfg n rest _ d hd

/-- Every call of the trigger loop has `isResolved = false`. -/
theorem triggerLoop_calls_unresolved (env : Env) (cfg : Config) (f : Int) :
    ∀ (as : List Alert) (i0 : Nat) (last : Int),
      ∀ c ∈ (triggerLoop env cfg f i0 last as).calls, c.isResolved = false := by
  intro as
  induction as with
  | nil => intro i0 last c hc; simp [triggerLoop] at hc
  | cons a rest ih =>
    intro i0 last c hc
    simp only [triggerLoop, List.mem_append] at hc
    rcases hc with hc | hc
    · rw [triggerAlert_calls_mem env cfg f i0 last a c hc]
    · exact ih _ _ c hc

/-- Every call of the resolve loop has `isResolved = true`. -/
theorem resolveLoop_calls_resolved (env : Env) (cfg : Config) (n : Int) :
    ∀ (as : List Alert) (i0 : Nat),
      ∀ c ∈ (resolveLoop env cfg n i0 as).2, c.isResolved = true := by
  intro as
  induction as with
  | nil => intro i0 c hc; simp [resolveLoop] at hc
  | cons a rest ih =>
    intro i0 c hc
    simp only [resolveLoop, List.mem_append] at hc
    rcases hc with hc | hc
    · rw [resolveAlert_calls_mem env cfg n i0 a c hc]
    · exact ih _ c hc

/-- With the mock toggle off, the trigger loop calls `Send` for an untriggered alert exactly
when the alert is due for an initial notification. -/
theorem triggerAlert_untriggered_calls (env : Env) (cfg : Config) (f : Int) (i : Nat)
    (last : Int) (a : Alert) (hmock : env.mockAlertProvider = false)
    (htr : a.Triggered = false) :
    (triggerAlert env cfg f i last a).calls =
      if dueForInitial cfg f a then [SendCall.mk i false] else [] := by
  by_cases h : a.IsEnabled = true ∧ a.FailureThreshold ≤ f
  · obtain ⟨hen, hf⟩ := h
    cases hp : cfg.GetAlertingProviderByAlertType a.type with
    | none =>
      rw [triggerAlert_no_provider _ _ _ _ _ _ hp]
      simp [dueForInitial, hp]
    | some p =>
      rw [triggerAlert_initial _ _ _ _ _ _ hen hf htr (by simp [hp]) hmock]
      have hdue : dueForInitial cfg f a = true := by simp [dueForInitial, hen, htr, hf, hp]
      rw [hdue]
      cases env.sendErr i <;> rfl
  · have hdue : dueForInitial cfg f a = false := by
      unfold dueForInitial
      by_cases hen : a.IsEnabled = true
      · have : ¬ a.FailureThreshold ≤ f := fun hf => h ⟨hen, hf⟩
        simp [this]
      · simp [hen]
    rw [hdue]
    by_cases hen : a.IsEnabled = true
    · rw [triggerAlert_below _ _ _ _ _ _ (by by_contra hlt; exact h ⟨hen, by omega⟩)]
      rfl
    · rw [triggerAlert_disabled _ _ _ _ _ _ (by simpa using hen)]
      rfl

/-- A triggered alert whose reminder is not due is skipped by the trigger loop. -/
theorem triggerAlert_triggered_not_due (env : Env) (cfg : Config) (f : Int) (i : Nat)
    (last : Int) (a : Alert) (htr : a.Triggered = true)
    (hnot : Since (env.sinceClock i) last < a.MinimumRepeatInterval) :
    triggerAlert env cfg f i last a = ⟨a, last, []⟩ := by
  unfold triggerAlert
  have h : ¬ (a.MinimumRepeatInterval ≤ Since (env.sinceClock i) last) := by omega
  simp [htr, h]

/-- Comparing `time.Since` with a positive duration, strict form. -/
theorem Since_lt_iff (now t d : Int) (hd : 0 < d) (hmax : d ≤ maxDuration) :
    Since now t < d ↔ now - t < d := by
  have h := Since_ge_iff now t d hd hmax
  constructor <;> intro h1 <;> by_contra h2 <;> omega

/-- A failing check made before the reminder is due, on an endpoint whose single alert is
triggered: no call is made, and the alert and `LastReminderSent` stay as they are. -/
theorem quiet_step (b : Alert) (t0 : Int) (htr : b.Triggered = true)
    (hd : 0 < b.MinimumRepeatInterval) (hmax : b.MinimumRepeatInterval ≤ maxDuration)
    (c : Call) (ep : Endpoint) (ha : ep.Alerts = [b]) (hl : ep.LastReminderSent = t0)
    (hth : b.FailureThreshold ≤ ep.NumberOfFailuresInARow + 1)
    (hr : c.result.Success = false)
    (hlt : c.env.sinceClock 0 - t0 < b.MinimumRepeatInterval) :
    ∃ ep', HandleAlerting c.env ep c.result c.alertingConfig c.debug = (ep', []) ∧
      ep'.Alerts = [b] ∧ ep'.LastReminderSent = t0 ∧
      b.FailureThreshold ≤ ep'.NumberOfFailuresInARow + 1 := by
  cases c.alertingConfig with
  | none => exact ⟨ep, rfl, ha, hl, hth⟩
  | some cfg =>
    have hskip : triggerAlert c.env cfg (ep.NumberOfFailuresInARow + 1) 0 ep.LastReminderSent b
        = ⟨b, ep.LastReminderSent, []⟩ :=
      triggerAlert_triggered_not_due _ _ _ _ _ _ htr
        (by rw [hl]; exact (Since_lt_iff _ _ _ hd hmax).2 hlt)
    refine ⟨{ ep with NumberOfSuccessesInARow := 0,
                      NumberOfFailuresInARow := ep.NumberOfFailuresInARow + 1 }, ?_, ha, hl,
      by simp only; omega⟩
    simp only [HandleAlerting, hr, handleAlertsToTrigger, ha, triggerLoop, hskip,
      Bool.false_eq_true, if_false, List.append_nil]

/-- Failing checks made before the reminder is due, on an endpoint whose single alert is
triggered: no call is made, and the alert and `LastReminderSent` stay as they are. -/
theorem quiet_run (b : Alert) (t0 : Int) (htr : b.Triggered = true)
    (hd : 0 < b.MinimumRepeatInterval) (hmax : b.MinimumRepeatInterval ≤ maxDuration) :
    ∀ (quiet : List Call) (ep : Endpoint), ep.Alerts = [b] → ep.LastReminderSent = t0 →
      b.FailureThreshold ≤ ep.NumberOfFailuresInARow + 1 →
      (∀ c ∈ quiet, c.result.Success = false ∧
        c.env.sinceClock 0 - t0 < b.MinimumRepeatInterval) →
      (runCalls quiet ep).2 = [] ∧ (runCalls quiet ep).1.Alerts = [b] ∧
      (runCalls quiet ep).1.LastReminderSent = t0 ∧
      b.FailureThreshold ≤ (runCalls quiet ep).1.NumberOfFailuresInARow + 1 := by
  intro quiet
  induction quiet with
  | nil => intro ep ha hl hth _; exact ⟨rfl, ha, hl, hth⟩
  | cons c cs ih =>
    intro ep ha hl hth hq
    obtain ⟨hr, hlt⟩ := hq c (List.mem_cons_self _ _)
    obtain ⟨ep', hstep, ha', hl', hth'⟩ := quiet_step b t0 htr hd hmax c ep ha hl hth hr hlt
    obtain ⟨I1, I2, I3, I4⟩ := ih ep' ha' hl' hth' (fun x hx => hq x (List.mem_cons_of_mem _ hx))
    rw [runCalls_cons, hstep]
    exact ⟨by simp only [List.nil_append]; exact I1, I2, I3, I4⟩

/-- An iteration of the trigger loop changes at most the `Triggered` flag of the alert. -/
theorem triggerAlert_alert_cases (env : Env) (cfg : Config) (f : Int) (i : Nat) (last : Int)
    (a : Alert) : (triggerAlert env cfg f i last a).alert = a ∨
      (triggerAlert env cfg f i last a).alert = { a with Triggered := true } := by
  unfold triggerAlert
  cases hp : cfg.GetAlertingProviderByAlertType a.type <;>
    simp only <;> split_ifs <;> simp

/-- An iteration of the resolve loop changes at most the `Triggered` flag of the alert. -/
theorem resolveAlert_alert_cases (env : Env) (cfg : Config) (n : Int) (i : Nat) (a : Alert) :
    (resolveAlert env cfg n i a).1 = a ∨
      (resolveAlert env cfg n i a).1 = { a with Triggered := false } := by
  by_cases h : a.IsEnabled = true ∧ a.Triggered = true ∧ a.SuccessThreshold ≤ n
  · obtain ⟨hen, htr, hn⟩ := h
    rw [resolveAlert_fire _ _ _ _ _ hen htr hn]
    exact Or.inr rfl
  · have hskip : a.IsEnabled = false ∨ a.Triggered = false ∨ n < a.SuccessThreshold := by
      by_cases hen : a.IsEnabled = true
      · by_cases htr : a.Triggered = true
        · exact Or.inr (Or.inr (by by_contra hlt; exact h ⟨hen, htr, by omega⟩))
        · exact Or.inr (Or.inl (by simpa using htr))
      · exact Or.inl (by simpa using hen)
    rw [resolveAlert_skip _ _ _ _ _ hskip]
    exact Or.inl rfl

/-- A call changes at most the `Triggered` flag of an alert. -/
theorem Call.run_same_rule (c : Call) (ep : Endpoint) (i : Nat) (a : Alert)
    (ha : ep.Alerts[i]? = some a) :
    ∃ t, (c.run ep).1.Alerts[i]? = some { a with Triggered := t } := by
  unfold Call.run
  cases hc : c.alertingConfig with
  | none => exact ⟨a.Triggered, ha⟩
  | some cfg =>
    cases hr : c.result.Success with
    | true =>
      obtain ⟨H1, -, -, -⟩ := HandleAlerting_success_at c.env ep c.result cfg c.debug i a hr ha
      rcases resolveAlert_alert_cases c.env cfg (ep.NumberOfSuccessesInARow + 1) i a with h | h
      · exact ⟨a.Triggered, by rw [H1, h]⟩
      · exact ⟨false, by rw [H1, h]⟩
    | false =>
      obtain ⟨H1, -, -, -⟩ := HandleAlerting_failure_at c.env ep c.result cfg c.debug i a hr ha
      rw [H1]
      rcases triggerAlert_alert_cases c.env cfg (ep.NumberOfFailuresInARow + 1) i
        (triggerLoop c.env cfg (ep.NumberOfFailuresInARow + 1) 0 ep.LastReminderSent
          (ep.Alerts.take i)).LastReminderSent a with h | h
      · exact ⟨a.Triggered, by rw [h]⟩
      · exact ⟨true, by rw [h]⟩

/-- A sequence of calls changes at most the `Triggered` flag of an alert. -/
theorem runCalls_same_rule (i : Nat) :
    ∀ (calls : List Call) (ep : Endpoint) (a : Alert), ep.Alerts[i]? = some a →
      ∃ t, (runCalls calls ep).1.Alerts[i]? = some { a with Triggered := t } := by
  intro calls
  induction calls with
  | nil => intro ep a ha; exact ⟨a.Triggered, ha⟩
  | cons c cs ih =>
    intro ep a ha
    obtain ⟨t, ht⟩ := Call.run_same_rule c ep i a ha
    obtain ⟨t', ht'⟩ := ih (c.run ep).1 _ ht
    exact ⟨t', ht'⟩

/-- A call made while an alert without reminder interval is triggered makes no
`Send(..., false)` for it, and leaves it triggered unless the result is a success. -/
theorem Call.run_while_triggered (c : Call) (ep : Endpoint) (i : Nat) (b : Alert)
    (hb : ep.Alerts[i]? = some b) (htr : b.Triggered = true)
    (hint : b.MinimumRepeatInterval ≤ 0) :
    sendCount i false (c.run ep).2 = 0 ∧
    (triggeredAt (c.run ep).1 i = false → c.result.Success = true) := by
  unfold Call.run
  cases hc : c.alertingConfig with
  | none =>
    refine ⟨rfl, fun h => ?_⟩
    have h2 : triggeredAt ep i = false := h
    rw [triggeredAt_of_get ep i b hb, htr] at h2
    exact absurd h2 (by simp)
  | some cfg =>
    cases hr : c.result.Success with
    | true =>
      obtain ⟨-, H2, -, -⟩ := HandleAlerting_success_at c.env ep c.result cfg c.debug i b hr hb
      refine ⟨?_, fun _ => rfl⟩
      rw [H2 false]
      apply List.count_eq_zero.2
      intro hmem
      have := resolveAlert_calls_mem c.env cfg _ i b _ hmem
      simp at this
    | false =>
      obtain ⟨H1, H2, -, -⟩ := HandleAlerting_failure_at c.env ep c.result cfg c.debug i b hr hb
      rw [triggerAlert_triggered_quiet _ _ _ _ _ _ htr hint] at H1 H2
      refine ⟨by rw [H2 false]; rfl, fun h => ?_⟩
      rw [triggeredAt_of_get _ i _ H1, htr] at h
      exact absurd h (by simp)

/-- An iteration of the trigger loop that made its `Send` call, the call returning no error,
leaves the alert triggered. -/
theorem triggerAlert_sent_ok (env : Env) (cfg : Config) (f : Int) (i : Nat) (last : Int)
    (a : Alert) (hcalls : (triggerAlert env cfg f i last a).calls ≠ [])
    (herr : env.sendErr i = false) : (triggerAlert env cfg f i last a).alert.Triggered = true := by
  unfold triggerAlert at hcalls ⊢
  cases hp : cfg.GetAlertingProviderByAlertType a.type <;>
    cases hm : env.mockAlertProvider <;>
    cases ht : a.Triggered <;>
    simp only [hp, hm, ht, herr, Bool.false_eq_true, if_false, if_true] at hcalls ⊢ <;>
    split_ifs at hcalls ⊢ <;> simp_all

/-- A call that makes `Send(..., false)` for an alert, the call returning no error, leaves
the alert triggered. -/
theorem Call.run_sent_ok (c : Call) (ep : Endpoint) (i : Nat) (b : Alert)
    (hb : ep.Alerts[i]? = some b) (hsend : SendCall.mk i false ∈ (c.run ep).2)
    (herr : c.env.sendErr i = false) : triggeredAt (c.run ep).1 i = true := by
  unfold Call.run at hsend ⊢
  have hpos : 0 < sendCount i false
      (HandleAlerting c.env ep c.result c.alertingConfig c.debug).2 :=
    List.count_pos_iff.2 hsend
  cases hc : c.alertingConfig with
  | none => rw [hc] at hpos; simp [HandleAlerting, sendCount] at hpos
  | some cfg =>
    rw [hc] at hpos
    cases hr : c.result.Success with
    | true =>
      obtain ⟨-, H2, -, -⟩ := HandleAlerting_success_at c.env ep c.result cfg c.debug i b hr hb
      rw [H2 false] at hpos
      have hmem := List.count_pos_iff.1 hpos
      have := resolveAlert_calls_mem c.env cfg _ i b _ hmem
      simp at this
    | false =>
      obtain ⟨H1, H2, -, -⟩ := HandleAlerting_failure_at c.env ep c.result cfg c.debug i b hr hb
      rw [H2 false] at hpos
      rw [triggeredAt_of_get _ i _ H1]
      apply triggerAlert_sent_ok _ _ _ _ _ _ _ herr
      intro hnil
      rw [hnil] at hpos
      simp [sendCount] at hpos

/-- From a state where an alert without reminder interval is triggered, a run of calls
either leaves it triggered or holds a successful evaluation that reset it. -/
theorem reset_in_run (i : Nat) :
    ∀ (mid : List Call) (ep : Endpoint) (b : Alert), ep.Alerts[i]? = some b →
      b.Triggered = true → b.MinimumRepeatInterval ≤ 0 →
      triggeredAt (runCalls mid ep).1 i = true ∨
      ∃ m1 r m2, mid = m1 ++ r :: m2 ∧ r.result.Success = true ∧
        triggeredAt (runCalls m1 ep).1 i = true ∧
        triggeredAt (r.run (runCalls m1 ep).1).1 i = false := by
  intro mid
  induction mid with
  | nil =>
    intro ep b hb htr _
    left
    rw [show (runCalls [] ep).1 = ep from rfl, triggeredAt_of_get ep i b hb, htr]
  | cons x xs ih =>
    intro ep b hb htr hint
    obtain ⟨t, ht⟩ := Call.run_same_rule x ep i b hb
    cases t with
    | true =>
      have hb' : (x.run ep).1.Alerts[i]? = some b := by
        rw [ht, ← htr]
      rcases ih (x.run ep).1 b hb' htr hint with h | ⟨m1, r, m2, hsplit, hr, h1, h2⟩
      · exact Or.inl h
      · exact Or.inr ⟨x :: m1, r, m2, by rw [hsplit]; rfl, hr, h1, h2⟩
    | false =>
      have hfalse : triggeredAt (x.run ep).1 i = false := by
        rw [triggeredAt_of_get _ i _ ht]
      have hr := (Call.run_while_triggered x ep i b hb htr hint).2 hfalse
      refine Or.inr ⟨[], x, xs, rfl, hr, ?_, hfalse⟩
      rw [show (runCalls [] ep).1 = ep from rfl, triggeredAt_of_get ep i b hb, htr]

/-- The value of `time.Since` for the instant at which the clock is read. -/
theorem Since_self (now : Int) : Since now now = 0 := by
  unfold Since
  simp [maxDuration, minDuration]

/-- A triggered alert visited when the clock reads `LastReminderSent` is skipped. -/
theorem triggerAlert_frozen_skip (env : Env) (cfg : Config) (f : Int) (i : Nat) (last : Int)
    (b : Alert) (htr : b.Triggered = true) (hclock : env.sinceClock i = last) :
    triggerAlert env cfg f i last b = ⟨b, last, []⟩ := by
  by_cases hd : 0 < b.MinimumRepeatInterval
  · exact triggerAlert_triggered_not_due _ _ _ _ _ _ htr (by rw [hclock, Since_self]; exact hd)
  · exact triggerAlert_triggered_quiet _ _ _ _ _ _ htr (by omega)

/-- An iteration of the trigger loop leaves `LastReminderSent` as it is or sets it to the
reading of `time.Now()`. -/
theorem triggerAlert_last_cases (env : Env) (cfg : Config) (f : Int) (i : Nat) (last : Int)
    (a : Alert) : (triggerAlert env cfg f i last a).LastReminderSent = last ∨
      (triggerAlert env cfg f i last a).LastReminderSent = env.nowClock i := by
  unfold triggerAlert
  cases hp : cfg.GetAlertingProviderByAlertType a.type <;>
    simp only <;> split_ifs <;> simp

/-- An iteration of the trigger loop that made its `Send` call, the call returning no error,
sets `LastReminderSent` to the reading of `time.Now()`. -/
theorem triggerAlert_sent_last (env : Env) (cfg : Config) (f : Int) (i : Nat) (last : Int)
    (a : Alert) (hcalls : (triggerAlert env cfg f i last a).calls ≠ [])
    (herr : env.sendErr i = false) :
    (triggerAlert env cfg f i last a).LastReminderSent = env.nowClock i := by
  unfold triggerAlert at hcalls ⊢
  cases hp : cfg.GetAlertingProviderByAlertType a.type <;>
    cases hm : env.mockAlertProvider <;>
    simp only [hp, hm, herr, Bool.false_eq_true, if_false, if_true] at hcalls ⊢ <;>
    split_ifs at hcalls ⊢ <;> simp_all

/-- With the clock frozen at `now`, a trigger loop entered with `LastReminderSent = now`
leaves it at `now`. -/
theorem triggerLoop_last_frozen (env : Env) (cfg : Config) (f : Int) (now : Int)
    (hnow : ∀ k, env.nowClock k = now) :
    ∀ (as : List Alert) (i0 : Nat),
      (triggerLoop env cfg f i0 now as).LastReminderSent = now := by
  intro as
  induction as with
  | nil => intro i0; rfl
  | cons a rest ih =>
    intro i0
    simp only [triggerLoop]
    rcases triggerAlert_last_cases env cfg f i0 now a with h | h
    · rw [h]; exact ih _
    · rw [h, hnow]; exact ih _

/-- With the clock frozen at `now`, a trigger loop entered with `LastReminderSent = now`
makes no call for a triggered alert. -/
theorem triggerLoop_frozen_quiet (env : Env) (cfg : Config) (f : Int) (now : Int)
    (hsince : ∀ k, env.sinceClock k = now) (hnow : ∀ k, env.nowClock k = now)
    (as : List Alert) (i0 k : Nat) (b : Alert) (hb : as[k]? = some b)
    (htr : b.Triggered = true) :
    sendCount (i0 + k) false (triggerLoop env cfg f i0 now as).calls = 0 := by
  rw [(triggerLoop_at env cfg f as i0 now k b hb).2 false,
    triggerLoop_last_frozen env cfg f now hnow,
    triggerAlert_frozen_skip _ _ _ _ _ _ htr (hsince _)]
  rfl

/-- With the clock frozen, once a `Send` of the trigger loop has returned no error, the loop
makes no call for a triggered alert further down the list. -/
theorem triggerLoop_after_success (env : Env) (cfg : Config) (f : Int) (now : Int)
    (hsince : ∀ k, env.sinceClock k = now) (hnow : ∀ k, env.nowClock k = now) :
    ∀ (as : List Alert) (i0 : Nat) (last : Int) (j k : Nat) (b : Alert), j < k →
      as[k]? = some b → b.Triggered = true →
      SendCall.mk (i0 + j) false ∈ (triggerLoop env cfg f i0 last as).calls →
      env.sendErr (i0 + j) = false →
      sendCount (i0 + k) false (triggerLoop env cfg f i0 last as).calls = 0 := by
  intro as
  induction as with
  | nil => intro i0 last j k b _ hb; simp at hb
  | cons x rest ih =>
    intro i0 last j k b hjk hb htr hsend herr
    obtain ⟨k', rfl⟩ : ∃ k', k = k' + 1 := ⟨k - 1, by omega⟩
    simp only [List.getElem?_cons_succ] at hb
    have hidx : i0 + (k' + 1) = i0 + 1 + k' := by omega
    simp only [triggerLoop, List.mem_append] at hsend
    simp only [triggerLoop, sendCount_append]
    have hhead : sendCount (i0 + (k' + 1)) false (triggerAlert env cfg f i0 last x).calls = 0 := by
      apply sendCount_eq_zero_of_ne
      intro c hc
      rw [triggerAlert_calls_mem env cfg f i0 last x c hc]
      simp only
      omega
    rw [hhead, Nat.zero_add, hidx]
    cases j with
    | zero =>
      have hne : (triggerAlert env cfg f i0 last x).calls ≠ [] := by
        rcases hsend with h | h
        · exact List.ne_nil_of_mem h
        · have := triggerLoop_calls_ge env cfg f rest _ _ _ h
          simp only at this
          omega
      have hlast := triggerAlert_sent_last env cfg f i0 last x hne (by simpa using herr)
      rw [hlast, hnow]
      exact triggerLoop_frozen_quiet env cfg f now hsince hnow rest (i0 + 1) k' b hb htr
    | succ j' =>
      have hidx' : i0 + (j' + 1) = i0 + 1 + j' := by omega
      rw [hidx'] at hsend herr
      rcases hsend with h | h
      · have := triggerAlert_calls_mem env cfg f i0 last x _ h
        simp only [SendCall.mk.injEq] at this
        omega
      · exact ih (i0 + 1) _ j' k' b (by omega) hb htr h herr

/-- An iteration of the trigger loop that made a `Send` call ran with the mock toggle off. -/
theorem triggerAlert_called_mock_off (env : Env) (cfg : Config) (f : Int) (i : Nat)
    (last : Int) (a : Alert) (hcalls : (triggerAlert env cfg f i last a).calls ≠ []) :
    env.mockAlertProvider = false := by
  unfold triggerAlert at hcalls
  cases hm : env.mockAlertProvider with
  | false => rfl
  | true =>
    exfalso
    apply hcalls
    cases hp : cfg.GetAlertingProviderByAlertType a.type <;>
      simp only [Bool.false_eq_true, if_false, if_true] <;> split_ifs <;> rfl

/-- A sequence of calls keeps the number of alerts of the endpoint. -/
theorem runCalls_length :
    ∀ (calls : List Call) (ep : Endpoint),
      (runCalls calls ep).1.Alerts.length = ep.Alerts.length := by
  intro calls
  induction calls with
  | nil => intro ep; rfl
  | cons c cs ih =>
    intro ep
    rw [runCalls_cons]
    simp only
    rw [ih, HandleAlerting_length]

/-- A call keeps the fact that an alert is enabled if it is triggered: `Enabled` is never
written, and `Triggered` is set only past the `IsEnabled` guard. -/
theorem Call.run_triggered_enabled (c : Call) (ep : Endpoint) (i : Nat) (b : Alert)
    (hb : ep.Alerts[i]? = some b) (hinv : b.Triggered = true → b.IsEnabled = true) :
    ∃ b', (c.run ep).1.Alerts[i]? = some b' ∧ (b'.Triggered = true → b'.IsEnabled = true) := by
  cases hen : b.IsEnabled with
  | true =>
    obtain ⟨t, ht⟩ := Call.run_same_rule c ep i b hb
    exact ⟨_, ht, fun _ => hen⟩
  | false =>
    have hkeep := (HandleAlerting_disabled c.env ep c.result c.alertingConfig c.debug i b hb
      hen).1
    exact ⟨b, hkeep, hinv⟩

/-- A sequence of calls keeps the fact that an alert is enabled if it is triggered. -/
theorem runCalls_triggered_enabled (i : Nat) :
    ∀ (calls : List Call) (ep : Endpoint) (b : Alert), ep.Alerts[i]? = some b →
      (b.Triggered = true → b.IsEnabled = true) →
      ∃ b', (runCalls calls ep).1.Alerts[i]? = some b' ∧
        (b'.Triggered = true → b'.IsEnabled = true) := by
  intro calls
  induction calls with
  | nil => intro ep b hb hinv; exact ⟨b, hb, hinv⟩
  | cons c cs ih =>
    intro ep b hb hinv
    obtain ⟨b1, hb1, hinv1⟩ := Call.run_triggered_enabled c ep i b hb hinv
    exact ih (c.run ep).1 b1 hb1 hinv1

/-- A successful call with a config present clears `Triggered` of an enabled, triggered alert
whose success threshold is at most the new success streak, whatever `SendOnResolved`, the
providers of the config and the answer of `Send` are. -/
theorem resolve_clears_enabled (env : Env) (ep : Endpoint) (r : Result) (cfg : Config)
    (dbg : Bool) (i : Nat) (a : Alert) (ha : ep.Alerts[i]? = some a)
    (hen : a.IsEnabled = true) (htr : a.Triggered = true) (hr : r.Success = true)
    (hth : a.SuccessThreshold
      ≤ (HandleAlerting env ep r (some cfg) dbg).1.NumberOfSuccessesInARow) :
    (HandleAlerting env ep r (some cfg) dbg).1.Alerts[i]? = some { a with Triggered := false } ∧
    triggeredAt (HandleAlerting env ep r (some cfg) dbg).1 i = false := by
  obtain ⟨H1, -, H3, -⟩ := HandleAlerting_success_at env ep r cfg dbg i a hr ha
  rw [H3] at hth
  rw [resolveAlert_fire _ _ _ _ _ hen htr hth] at H1
  exact ⟨H1, by rw [triggeredAt_of_get _ i _ H1]⟩

/-! ## Theorems: the evaluator -/

/-- C1: for an enabled, untriggered alert with failure threshold `n ≥ 1` and no reminder
interval, on an endpoint whose failure streak is 0, with a provider whose `Send` returns no
error and the mock toggle off: after `m` consecutive failing calls of `HandleAlerting` the
number of `Send(..., false)` calls made for the alert is 0 when `m < n` and 1 when `m ≥ n`,
the alert is triggered iff `m ≥ n`, and the evaluation that makes the one call is the `n`-th:
the call at position `p + 1` of the run makes one `Send(..., false)` if `p + 1 = n` and none
otherwise. -/
theorem C1_initial_send_once (ep : Endpoint) (i : Nat) (a : Alert) (calls : List Call)
    (ha : ep.Alerts[i]? = some a) (hen : a.IsEnabled = true) (htr : a.Triggered = false)
    (hn : 1 ≤ a.FailureThreshold) (hint : a.MinimumRepeatInterval = 0)
    (hstreak : ep.NumberOfFailuresInARow = 0)
    (hcalls : ∀ c ∈ calls, c.result.Success = false ∧ c.hasProvider a.type = true ∧
      c.env.mockAlertProvider = false ∧ c.env.sendErr i = false) :
    sendCount i false (runCalls calls ep).2
      = (if (calls.length : Int) < a.FailureThreshold then 0 else 1) ∧
    (runCalls calls ep).1.Alerts[i]?
      = some { a with Triggered := decide (a.FailureThreshold ≤ (calls.length : Int)) } ∧
    (∀ (pre post : List Call) (c : Call), calls = pre ++ c :: post →
      sendCount i false
        (HandleAlerting c.env (runCalls pre ep).1 c.result c.alertingConfig c.debug).2
        = (if (pre.length : Int) + 1 = a.FailureThreshold then 1 else 0)) := by
  have h0 : ¬ a.FailureThreshold ≤ ((0 : Nat) : Int) := by simp only [Nat.cast_zero]; omega
  have ha0 : ep.Alerts[i]? = some { a with Triggered := decide (a.FailureThreshold ≤ ((0 : Nat) : Int)) } := by
    rw [ha, decide_eq_false h0, ← htr]
  have main : ∀ cs : List Call,
      (∀ c ∈ cs, c.result.Success = false ∧ c.hasProvider a.type = true ∧
        c.env.mockAlertProvider = false ∧ c.env.sendErr i = false) →
      sendCount i false (runCalls cs ep).2
        = (if (cs.length : Int) < a.FailureThreshold then 0 else 1) ∧
      (runCalls cs ep).1.Alerts[i]?
        = some { a with Triggered := decide (a.FailureThreshold ≤ (cs.length : Int)) } := by
    intro cs hcs
    obtain ⟨h1, h2⟩ := failing_run_from i a hen hint cs ep 0 (by simpa using hstreak) ha0 hcs
    simp only [Nat.zero_add, Nat.cast_zero] at h1 h2
    refine ⟨?_, h2⟩
    rw [h1]
    by_cases hm : (cs.length : Int) < a.FailureThreshold
    · rw [if_pos hm, if_neg (by omega)]
    · rw [if_neg hm, if_pos (by omega)]
  refine ⟨(main calls hcalls).1, (main calls hcalls).2, ?_⟩
  intro pre post c hsplit
  have hpre : ∀ x ∈ pre, x.result.Success = false ∧ x.hasProvider a.type = true ∧
      x.env.mockAlertProvider = false ∧ x.env.sendErr i = false := by
    intro x hx; exact hcalls x (by rw [hsplit]; simp [hx])
  have hprec : ∀ x ∈ pre ++ [c], x.result.Success = false ∧ x.hasProvider a.type = true ∧
      x.env.mockAlertProvider = false ∧ x.env.sendErr i = false := by
    intro x hx
    apply hcalls x
    rw [hsplit]
    rcases List.mem_append.1 hx with hx | hx
    · simp [hx]
    · simp [List.mem_singleton.1 hx]
  have e1 := (main pre hpre).1
  have e2 := (main (pre ++ [c]) hprec).1
  rw [sendCount_runCalls_snoc, e1] at e2
  simp only [List.length_append, List.length_singleton, Nat.cast_add, Nat.cast_one] at e2
  split_ifs at e2 ⊢ <;> omega

/-- Instance of C1 with threshold 3: three failing checks give exactly one `Send`, a fourth
one gives no further `Send`, and two give none. -/
theorem C1_initial_send_once_witness :
    sendCount 0 false (runCalls [failingCall 1, failingCall 2] exampleEndpoint).2 = 0 ∧
    sendCount 0 false
      (runCalls [failingCall 1, failingCall 2, failingCall 3] exampleEndpoint).2 = 1 ∧
    sendCount 0 false
      (runCalls [failingCall 1, failingCall 2, failingCall 3, failingCall 4] exampleEndpoint).2
        = 1 := by
  have h2 := (C1_initial_send_once exampleEndpoint 0 exampleAlert
    [failingCall 1, failingCall 2] rfl rfl rfl (by decide) rfl rfl (by decide)).1
  have h3 := (C1_initial_send_once exampleEndpoint 0 exampleAlert
    [failingCall 1, failingCall 2, failingCall 3] rfl rfl rfl (by decide) rfl rfl (by decide)).1
  have h4 := (C1_initial_send_once exampleEndpoint 0 exampleAlert
    [failingCall 1, failingCall 2, failingCall 3, failingCall 4] rfl rfl rfl (by decide) rfl rfl
    (by decide)).1
  exact ⟨h2, h3, h4⟩

/-- C2: when `Send` returns an error during a failing evaluation (mock toggle off), the
iteration for that alert leaves the alert, hence its `Triggered` flag, and
`endpoint.LastReminderSent` exactly as they were before the alert was processed, whether the
send was an initial notification or a reminder; and after the whole call the alert is the one
the endpoint held before the call. -/
theorem C2_send_error_keeps_state (env : Env) (cfg : Config) (ep : Endpoint) (r : Result)
    (dbg : Bool) (i : Nat) (a : Alert) (hr : r.Success = false) (ha : ep.Alerts[i]? = some a)
    (hmock : env.mockAlertProvider = false) (herr : env.sendErr i = true) :
    (∀ (f last : Int), (triggerAlert env cfg f i last a).alert = a ∧
      (triggerAlert env cfg f i last a).LastReminderSent = last) ∧
    (HandleAlerting env ep r (some cfg) dbg).1.Alerts[i]? = some a := by
  have body : ∀ (f last : Int), (triggerAlert env cfg f i last a).alert = a ∧
      (triggerAlert env cfg f i last a).LastReminderSent = last := by
    intro f last
    unfold triggerAlert
    cases cfg.GetAlertingProviderByAlertType a.type <;>
      simp only [hmock, herr, Bool.false_eq_true, if_false, if_true] <;>
      split_ifs <;> exact ⟨rfl, rfl⟩
  refine ⟨body, ?_⟩
  rw [(HandleAlerting_failure_at env ep r cfg dbg i a hr ha).1, (body _ _).1]

/-- Instance of C2: on the third failed check the initial `Send` is made and returns an
error, and the alert (untriggered) and `LastReminderSent` are as before; on a check eleven
minutes after the last notification the reminder `Send` is made and returns an error, and the
alert (triggered) and `LastReminderSent` are as before. -/
theorem C2_send_error_keeps_state_witness :
    (triggerAlert (worldAt 5 true) exampleConfig 3 0 0 exampleAlert).calls
      = [SendCall.mk 0 false] ∧
    ((triggerAlert (worldAt 5 true) exampleConfig 3 0 0 exampleAlert).alert = exampleAlert ∧
      (triggerAlert (worldAt 5 true) exampleConfig 3 0 0 exampleAlert).LastReminderSent = 0) ∧
    (HandleAlerting (worldAt 5 true) twiceFailedEndpoint ⟨false⟩ (some exampleConfig)
      false).1.Alerts[0]? = some exampleAlert ∧
    (triggerAlert (worldAt 660000000000 true) exampleConfig 4 0 0 remindingAlert).calls
      = [SendCall.mk 0 false] ∧
    ((triggerAlert (worldAt 660000000000 true) exampleConfig 4 0 0 remindingAlert).alert
        = remindingAlert ∧
      (triggerAlert (worldAt 660000000000 true) exampleConfig 4 0 0
        remindingAlert).LastReminderSent = 0) :=
  ⟨by decide,
    (C2_send_error_keeps_state (worldAt 5 true) exampleConfig twiceFailedEndpoint ⟨false⟩ false 0
      exampleAlert rfl rfl rfl rfl).1 3 0,
    (C2_send_error_keeps_state (worldAt 5 true) exampleConfig twiceFailedEndpoint ⟨false⟩ false 0
      exampleAlert rfl rfl rfl rfl).2,
    by decide,
    (C2_send_error_keeps_state (worldAt 660000000000 true) exampleConfig remindingEndpoint
      ⟨false⟩ false 0 remindingAlert rfl rfl rfl rfl).1 4 0⟩

/-- C3, as stated, fails under the mock toggle: the third failed check makes the initial
`Send`, which returns an error, and leaves the alert untriggered; on the very next failing
check, made with `MOCK_ALERT_PROVIDER` set to `"true"`, no `Send` is attempted, and the alert
becomes triggered without any successful `Send`. -/
theorem C3_mock_counterexample :
    SendCall.mk 0 false ∈ ((failingCallErr 3).run twiceFailedEndpoint).2 ∧
    (failingCallErr 3).env.sendErr 0 = true ∧
    ((failingCallErr 3).run twiceFailedEndpoint).1.Alerts[0]? = some exampleAlert ∧
    ((mockFailingCall 4).run ((failingCallErr 3).run twiceFailedEndpoint).1).2 = [] ∧
    triggeredAt ((mockFailingCall 4).run ((failingCallErr 3).run twiceFailedEndpoint).1).1 0
      = true ∧
    ¬ (∀ (ep : Endpoint) (i : Nat) (a : Alert) (c0 c1 : Call), ep.Alerts[i]? = some a →
        a.IsEnabled = true → a.Triggered = false →
        a.FailureThreshold ≤ ep.NumberOfFailuresInARow + 1 →
        c0.result.Success = false → SendCall.mk i false ∈ (c0.run ep).2 →
        c0.env.sendErr i = true →
        c1.result.Success = false → c1.hasProvider a.type = true →
        SendCall.mk i false ∈ (c1.run (c0.run ep).1).2) := by
  refine ⟨by decide, rfl, by decide, by decide, by decide, fun h => ?_⟩
  have h1 := h twiceFailedEndpoint 0 exampleAlert (failingCallErr 3) (mockFailingCall 4) rfl rfl
    rfl (by decide) rfl (by decide) rfl rfl rfl
  revert h1
  decide

/-- C3, amended: with the mock toggle off in every evaluation, an initial `Send` that returns
an error is attempted again on every following failing check: for an enabled, untriggered
alert whose threshold is reached by the next failure, after any run of failing checks whose
`Send` returns an error the alert has been sent once per check and is unchanged (still
untriggered), and a further failing check whose `Send` returns no error sends once more and
marks the alert triggered. -/
theorem C3_initial_send_retried (ep : Endpoint) (i : Nat) (a : Alert) (errs : List Call)
    (ok : Call) (ha : ep.Alerts[i]? = some a) (hen : a.IsEnabled = true)
    (htr : a.Triggered = false) (hth : a.FailureThreshold ≤ ep.NumberOfFailuresInARow + 1)
    (herrs : ∀ c ∈ errs, c.result.Success = false ∧ c.hasProvider a.type = true ∧
      c.env.mockAlertProvider = false ∧ c.env.sendErr i = true)
    (hok : ok.result.Success = false ∧ ok.hasProvider a.type = true ∧
      ok.env.mockAlertProvider = false ∧ ok.env.sendErr i = false) :
    sendCount i false (runCalls errs ep).2 = errs.length ∧
    (runCalls errs ep).1.Alerts[i]? = some a ∧
    sendCount i false (runCalls (errs ++ [ok]) ep).2 = errs.length + 1 ∧
    (runCalls (errs ++ [ok]) ep).1.Alerts[i]? = some { a with Triggered := true } := by
  obtain ⟨E1, E2, E3⟩ := failing_run_errors i a hen htr errs ep ha hth herrs
  obtain ⟨hr, hprov, hmock, herr⟩ := hok
  obtain ⟨cfg, hcfg, hp⟩ := (Call.hasProvider_iff ok a.type).1 hprov
  obtain ⟨H1, H2, -, -⟩ :=
    HandleAlerting_failure_at ok.env (runCalls errs ep).1 ok.result cfg ok.debug i a hr E2
  rw [← hcfg] at H1 H2
  rw [triggerAlert_initial _ _ _ _ _ _ hen E3 htr hp hmock, herr] at H1 H2
  simp only [Bool.false_eq_true, if_false] at H1 H2
  refine ⟨E1, E2, ?_, ?_⟩
  · rw [runCalls_append]
    simp only [sendCount_append, E1, runCalls_cons, runCalls, List.append_nil, H2 false]
    simp [sendCount]
  · rw [runCalls_append]
    simp only [runCalls_cons, runCalls]
    exact H1

/-- Instance of C3, amended, with threshold 3 after two failures: two failing checks whose `Send`
fails and a third whose `Send` succeeds make three `Send` calls, and only the third one marks
the alert triggered. -/
theorem C3_initial_send_retried_witness :
    sendCount 0 false (runCalls [failingCallErr 3, failingCallErr 4] twiceFailedEndpoint).2 = 2 ∧
    (runCalls [failingCallErr 3, failingCallErr 4] twiceFailedEndpoint).1.Alerts[0]?
      = some exampleAlert ∧
    sendCount 0 false
      (runCalls ([failingCallErr 3, failingCallErr 4] ++ [failingCall 5]) twiceFailedEndpoint).2
        = 2 + 1 ∧
    (runCalls ([failingCallErr 3, failingCallErr 4] ++ [failingCall 5])
      twiceFailedEndpoint).1.Alerts[0]? = some { exampleAlert with Triggered := true } :=
  C3_initial_send_retried twiceFailedEndpoint 0 exampleAlert
    [failingCallErr 3, failingCallErr 4] (failingCall 5) rfl rfl rfl (by decide) (by decide)
    (by decide)

/-- C4: for an enabled, triggered alert that sends on resolved, with success threshold
`s ≥ 1` and a provider, on an endpoint whose success streak is 0: after `m` consecutive
successful calls of `HandleAlerting` the number of `Send(..., true)` calls made for the alert
is 0 when `m < s` and 1 when `m ≥ s`, the alert is triggered iff `m < s`, and the evaluation
that makes the one call is the `s`-th: the call at position `p + 1` of the run makes one
`Send(..., true)` if `p + 1 = s` and none otherwise. Nothing is assumed about what `Send`
returns. -/
theorem C4_resolve_send_once (ep : Endpoint) (i : Nat) (a : Alert) (calls : List Call)
    (ha : ep.Alerts[i]? = some a) (hen : a.IsEnabled = true) (htr : a.Triggered = true)
    (hsend : a.SendOnResolved = some true) (hs : 1 ≤ a.SuccessThreshold)
    (hstreak : ep.NumberOfSuccessesInARow = 0)
    (hcalls : ∀ c ∈ calls, c.result.Success = true ∧ c.hasProvider a.type = true) :
    sendCount i true (runCalls calls ep).2
      = (if (calls.length : Int) < a.SuccessThreshold then 0 else 1) ∧
    (runCalls calls ep).1.Alerts[i]?
      = some { a with Triggered := decide ((calls.length : Int) < a.SuccessThreshold) } ∧
    (∀ (pre post : List Call) (c : Call), calls = pre ++ c :: post →
      sendCount i true
        (HandleAlerting c.env (runCalls pre ep).1 c.result c.alertingConfig c.debug).2
        = (if (pre.length : Int) + 1 = a.SuccessThreshold then 1 else 0)) := by
  have h0 : ((0 : Nat) : Int) < a.SuccessThreshold := by simp only [Nat.cast_zero]; omega
  have ha0 : ep.Alerts[i]? =
      some { a with Triggered := decide (((0 : Nat) : Int) < a.SuccessThreshold) } := by
    rw [ha, decide_eq_true h0, ← htr]
  have hsend2 : a.IsSendingOnResolved = true := by simp [Alert.IsSendingOnResolved, hsend]
  have main : ∀ cs : List Call,
      (∀ c ∈ cs, c.result.Success = true ∧ c.hasProvider a.type = true) →
      sendCount i true (runCalls cs ep).2
        = (if (cs.length : Int) < a.SuccessThreshold then 0 else 1) ∧
      (runCalls cs ep).1.Alerts[i]?
        = some { a with Triggered := decide ((cs.length : Int) < a.SuccessThreshold) } := by
    intro cs hcs
    obtain ⟨h1, h2⟩ :=
      success_run_from i a hen hsend2 cs ep 0 (by simpa using hstreak) ha0 hcs
    simp only [Nat.zero_add, Nat.cast_zero] at h1 h2
    refine ⟨?_, h2⟩
    rw [h1]
    by_cases hm : (cs.length : Int) < a.SuccessThreshold
    · rw [if_pos hm, if_neg (by omega)]
    · rw [if_neg hm, if_pos (by omega)]
  refine ⟨(main calls hcalls).1, (main calls hcalls).2, ?_⟩
  intro pre post c hsplit
  have hpre : ∀ x ∈ pre, x.result.Success = true ∧ x.hasProvider a.type = true := by
    intro x hx; exact hcalls x (by rw [hsplit]; simp [hx])
  have hprec : ∀ x ∈ pre ++ [c], x.result.Success = true ∧ x.hasProvider a.type = true := by
    intro x hx
    apply hcalls x
    rw [hsplit]
    rcases List.mem_append.1 hx with hx | hx
    · simp [hx]
    · simp [List.mem_singleton.1 hx]
  have e1 := (main pre hpre).1
  have e2 := (main (pre ++ [c]) hprec).1
  rw [sendCount_runCalls_snoc, e1] at e2
  simp only [List.length_append, List.length_singleton, Nat.cast_add, Nat.cast_one] at e2
  split_ifs at e2 ⊢ <;> omega

/-- Instance of C4 with success threshold 2 and a `Send` that returns an error: one
successful check sends nothing, two send exactly one resolution and clear `Triggered`, and a
third one sends nothing more. -/
theorem C4_resolve_send_once_witness :
    sendCount 0 true (runCalls [successCall 1 true] triggeredEndpoint).2 = 0 ∧
    sendCount 0 true (runCalls [successCall 1 true, successCall 2 true] triggeredEndpoint).2
      = 1 ∧
    (runCalls [successCall 1 true, successCall 2 true] triggeredEndpoint).1.Alerts[0]?
      = some exampleAlert ∧
    sendCount 0 true
      (runCalls [successCall 1 true, successCall 2 true, successCall 3 true]
        triggeredEndpoint).2 = 1 := by
  have h1 := (C4_resolve_send_once triggeredEndpoint 0 { exampleAlert with Triggered := true }
    [successCall 1 true] rfl rfl rfl rfl (by decide) rfl (by decide)).1
  have h2 := C4_resolve_send_once triggeredEndpoint 0 { exampleAlert with Triggered := true }
    [successCall 1 true, successCall 2 true] rfl rfl rfl rfl (by decide) rfl (by decide)
  have h3 := (C4_resolve_send_once triggeredEndpoint 0 { exampleAlert with Triggered := true }
    [successCall 1 true, successCall 2 true, successCall 3 true] rfl rfl rfl rfl (by decide) rfl
    (by decide)).1
  exact ⟨h1, h2.1, h2.2.1, h3⟩

/-- C5: for an enabled, triggered alert that is not sending on resolved (the field false or
unset), over any run of successful evaluations no `Send` call at all is made for the alert,
and the alert stays triggered exactly until the evaluation that brings the success streak up
to its success threshold: after a non-empty run it is triggered iff the streak is still below
the threshold. -/
theorem C5_not_sending_on_resolved (ep : Endpoint) (i : Nat) (a : Alert) (calls : List Call)
    (ha : ep.Alerts[i]? = some a) (hen : a.IsEnabled = true) (htr : a.Triggered = true)
    (hs : a.IsSendingOnResolved = false)
    (hcalls : ∀ c ∈ calls, c.result.Success = true ∧ c.alertingConfig.isSome = true) :
    (∀ c ∈ (runCalls calls ep).2, c.alert ≠ i) ∧
    (runCalls calls ep).1.NumberOfSuccessesInARow
      = ep.NumberOfSuccessesInARow + (calls.length : Int) ∧
    (runCalls calls ep).1.Alerts[i]? = some { a with Triggered := decide (calls.length = 0 ∨
      ep.NumberOfSuccessesInARow + (calls.length : Int) < a.SuccessThreshold) } := by
  obtain ⟨h1, h2⟩ := success_run_not_sending i calls ep a ha hen hs hcalls
  refine ⟨no_call_of_sendCount i _ h1, success_run_streak calls ep hcalls, ?_⟩
  rw [h2, htr, Bool.true_and]

/-- Instance of C5 with success threshold 2 and `SendOnResolved` unset: the second
successful check clears `Triggered`, and three successful checks make no `Send` call. -/
theorem C5_not_sending_on_resolved_witness :
    (runCalls [successCall 1 false] silentlyResolvingEndpoint).1.Alerts[0]?
      = some { exampleAlert with SendOnResolved := none, Triggered := true } ∧
    (runCalls [successCall 1 false, successCall 2 false] silentlyResolvingEndpoint).1.Alerts[0]?
      = some { exampleAlert with SendOnResolved := none, Triggered := false } ∧
    (runCalls [successCall 1 false, successCall 2 false, successCall 3 false]
      silentlyResolvingEndpoint).2 = [] := by
  have h1 := (C5_not_sending_on_resolved silentlyResolvingEndpoint 0
    { exampleAlert with SendOnResolved := none, Triggered := true }
    [successCall 1 false] rfl rfl rfl rfl (by decide)).2.2
  have h2 := (C5_not_sending_on_resolved silentlyResolvingEndpoint 0
    { exampleAlert with SendOnResolved := none, Triggered := true }
    [successCall 1 false, successCall 2 false] rfl rfl rfl rfl (by decide)).2.2
  exact ⟨h1, h2, by decide⟩

/-- C6: for an endpoint whose single alert is enabled, triggered, has its failure threshold
met by this failure, a reminder interval `d > 0` (a `time.Duration`) and a provider, with the
mock toggle off: a failing call of `HandleAlerting` at clock reading `now` makes exactly one
`Send(..., false)` call if `now - LastReminderSent ≥ d` and none otherwise; `LastReminderSent`
becomes `now` exactly when that call is made and returns no error, and is unchanged
otherwise; the alert is unchanged, so it stays triggered. -/
theorem C6_reminder_interval (env : Env) (cfg : Config) (ep : Endpoint) (r : Result)
    (dbg : Bool) (a : Alert) (now : Int) (halerts : ep.Alerts = [a])
    (hen : a.IsEnabled = true) (htr : a.Triggered = true)
    (hth : a.FailureThreshold ≤ ep.NumberOfFailuresInARow + 1)
    (hd : 0 < a.MinimumRepeatInterval) (hmax : a.MinimumRepeatInterval ≤ maxDuration)
    (hp : (cfg.GetAlertingProviderByAlertType a.type).isSome = true)
    (hmock : env.mockAlertProvider = false) (hr : r.Success = false)
    (hsince : env.sinceClock 0 = now) (hnow : env.nowClock 0 = now) :
    (HandleAlerting env ep r (some cfg) dbg).2 =
      (if a.MinimumRepeatInterval ≤ now - ep.LastReminderSent then [SendCall.mk 0 false]
        else []) ∧
    (HandleAlerting env ep r (some cfg) dbg).1.LastReminderSent =
      (if a.MinimumRepeatInterval ≤ now - ep.LastReminderSent ∧ env.sendErr 0 = false then now
        else ep.LastReminderSent) ∧
    (HandleAlerting env ep r (some cfg) dbg).1.Alerts = [a] := by
  simp only [HandleAlerting, hr, handleAlertsToTrigger, halerts, triggerLoop,
    Bool.false_eq_true, if_false]
  rw [triggerAlert_reminder _ _ _ _ _ _ hen hth htr hd hp hmock, hsince, hnow]
  by_cases hdue : a.MinimumRepeatInterval ≤ now - ep.LastReminderSent
  · rw [if_pos ((Since_ge_iff _ _ _ hd hmax).2 hdue)]
    cases herr : env.sendErr 0 <;> simp [hdue]
  · rw [if_neg (fun h => hdue ((Since_ge_iff _ _ _ hd hmax).1 h))]
    simp [hdue]

/-- Instance of C6 with a ten minute interval and `LastReminderSent = 0`: a failing check
nine minutes later sends nothing, one eleven minutes later sends exactly one reminder and
moves `LastReminderSent` to that time. -/
theorem C6_reminder_interval_witness :
    (HandleAlerting (worldAt 540000000000 false) remindingEndpoint ⟨false⟩ (some exampleConfig)
      false).2 = [] ∧
    (HandleAlerting (worldAt 660000000000 false) remindingEndpoint ⟨false⟩ (some exampleConfig)
      false).2 = [SendCall.mk 0 false] ∧
    (HandleAlerting (worldAt 660000000000 false) remindingEndpoint ⟨false⟩ (some exampleConfig)
      false).1.LastReminderSent = 660000000000 := by
  have h9 := (C6_reminder_interval (worldAt 540000000000 false) exampleConfig remindingEndpoint
    ⟨false⟩ false remindingAlert
    540000000000 rfl rfl rfl (by decide) (by decide) (by decide) rfl rfl rfl rfl rfl).1
  have h11 := C6_reminder_interval (worldAt 660000000000 false) exampleConfig remindingEndpoint
    ⟨false⟩ false remindingAlert
    660000000000 rfl rfl rfl (by decide) (by decide) (by decide) rfl rfl rfl rfl rfl
  exact ⟨h9, h11.1, h11.2.1⟩

/-! ## Theorems: alert configuration -/

/-- The description of an alert does not depend on its thresholds. -/
theorem GetDescription_defaults (a : Alert) :
    (a.ValidateAndSetDefaults).1.GetDescription = a.GetDescription := by
  unfold Alert.ValidateAndSetDefaults Alert.GetDescription
  simp only
  split_ifs <;> rfl

/-- Membership form of the character test made by `ValidateAndSetDefaults`. -/
theorem containsAny_invalid_iff (s : String) :
    ContainsAny s invalidDescriptionChars = true ↔
      (Char.ofNat 34 ∈ s.toList ∨ Char.ofNat 92 ∈ s.toList) := by
  unfold ContainsAny invalidDescriptionChars
  rw [List.any_eq_true]
  constructor
  · rintro ⟨c, hc, h⟩
    have h2 : c ∈ [Char.ofNat 34, Char.ofNat 92] := by simpa using h
    rcases List.mem_cons.1 h2 with h3 | h3
    · exact Or.inl (h3 ▸ hc)
    · exact Or.inr (List.mem_singleton.1 h3 ▸ hc)
  · rintro (h | h)
    · exact ⟨_, h, by simp⟩
    · exact ⟨_, h, by simp⟩

/-- The error returned by `ValidateAndSetDefaults`, in terms of the description alone. -/
theorem ValidateAndSetDefaults_snd (a : Alert) :
    (a.ValidateAndSetDefaults).2 =
      if ContainsAny a.GetDescription invalidDescriptionChars then
        some AlertError.ErrAlertWithInvalidDescription
      else none := by
  have h := GetDescription_defaults a
  unfold Alert.ValidateAndSetDefaults at h ⊢
  simp only at h ⊢
  split_ifs at h ⊢ <;> simp_all

/-- C7: `ValidateAndSetDefaults` returns `ErrAlertWithInvalidDescription` if and only if the
description (the empty string when unset) contains a double quote (code point 34) or a
backslash (code point 92), and it returns `nil` for every description containing neither,
the empty and the unset one included. -/
theorem C7_invalid_description_iff (a : Alert) :
    ((a.ValidateAndSetDefaults).2 = some AlertError.ErrAlertWithInvalidDescription ↔
        (Char.ofNat 34 ∈ a.GetDescription.toList ∨ Char.ofNat 92 ∈ a.GetDescription.toList)) ∧
    ((a.ValidateAndSetDefaults).2 = none ↔
        ¬ (Char.ofNat 34 ∈ a.GetDescription.toList ∨ Char.ofNat 92 ∈ a.GetDescription.toList)) ∧
    (({ a with Description := none } : Alert).ValidateAndSetDefaults).2 = none ∧
    (({ a with Description := some "" } : Alert).ValidateAndSetDefaults).2 = none := by
  have key : ∀ b : Alert, (b.ValidateAndSetDefaults).2 =
      if (Char.ofNat 34 ∈ b.GetDescription.toList ∨ Char.ofNat 92 ∈ b.GetDescription.toList)
      then some AlertError.ErrAlertWithInvalidDescription else none := by
    intro b
    rw [ValidateAndSetDefaults_snd]
    by_cases h : ContainsAny b.GetDescription invalidDescriptionChars = true
    · rw [if_pos h, if_pos ((containsAny_invalid_iff _).1 h)]
    · rw [if_neg h, if_neg (fun h2 => h ((containsAny_invalid_iff _).2 h2))]
  refine ⟨?_, ?_, ?_, ?_⟩
  · rw [key]; split_ifs with h
    · exact ⟨fun _ => h, fun _ => rfl⟩
    · exact ⟨fun h2 => (by simp at h2), fun h2 => absurd h2 h⟩
  · rw [key]; split_ifs with h
    · exact ⟨fun h2 => (by simp at h2), fun h2 => absurd h h2⟩
    · exact ⟨fun _ => h, fun _ => rfl⟩
  · rw [key, if_neg]
    simp [Alert.GetDescription]
  · rw [key, if_neg]
    simp [Alert.GetDescription]

/-- The alert left by `ValidateAndSetDefaults`: only the two thresholds may differ. -/
theorem ValidateAndSetDefaults_fst (a : Alert) :
    (a.ValidateAndSetDefaults).1 =
      { a with
        FailureThreshold := if a.FailureThreshold ≤ 0 then 3 else a.FailureThreshold
        SuccessThreshold := if a.SuccessThreshold ≤ 0 then 2 else a.SuccessThreshold } := by
  unfold Alert.ValidateAndSetDefaults
  simp only
  split_ifs <;> rfl

/-- C8: after `ValidateAndSetDefaults`, whatever the description and the returned error, the
failure threshold is 3 if it was not positive and unchanged otherwise, and the success
threshold is 2 if it was not positive and unchanged otherwise. -/
theorem C8_threshold_defaults (a : Alert) :
    (a.ValidateAndSetDefaults).1.FailureThreshold
        = (if a.FailureThreshold ≤ 0 then 3 else a.FailureThreshold) ∧
    (a.ValidateAndSetDefaults).1.SuccessThreshold
        = (if a.SuccessThreshold ≤ 0 then 2 else a.SuccessThreshold) := by
  rw [ValidateAndSetDefaults_fst]
  exact ⟨rfl, rfl⟩

/-- C9: `ValidateAndSetDefaults` is idempotent: a second call on the alert left by a first
call changes no field and returns what the first call returned. -/
theorem C9_validate_idempotent (a : Alert) :
    (a.ValidateAndSetDefaults).1.ValidateAndSetDefaults = a.ValidateAndSetDefaults := by
  have h1 : ((a.ValidateAndSetDefaults).1.ValidateAndSetDefaults).1
      = (a.ValidateAndSetDefaults).1 := by
    rw [ValidateAndSetDefaults_fst (a.ValidateAndSetDefaults).1, ValidateAndSetDefaults_fst a]
    have hf : ¬ (if a.FailureThreshold ≤ 0 then (3 : Int) else a.FailureThreshold) ≤ 0 := by
      split_ifs <;> omega
    have hs : ¬ (if a.SuccessThreshold ≤ 0 then (2 : Int) else a.SuccessThreshold) ≤ 0 := by
      split_ifs <;> omega
    simp only [if_neg hf, if_neg hs]
  have h2 : ((a.ValidateAndSetDefaults).1.ValidateAndSetDefaults).2
      = (a.ValidateAndSetDefaults).2 := by
    rw [ValidateAndSetDefaults_snd, ValidateAndSetDefaults_snd, GetDescription_defaults]
  exact Prod.ext h1 h2

/-! ## Theorems: disabled alerts -/

/-- C10: an alert whose `Enabled` is explicitly false never causes a `Send` call: whatever the
endpoint state, the result, the alerting config and the answers of the outside world, a call
of `HandleAlerting` makes no `Send` call for it, with either value of `isResolved`, and
neither does any sequence of calls. -/
theorem C10_disabled_never_sends (env : Env) (ep : Endpoint) (r : Result)
    (cfg : Option Config) (dbg : Bool) (calls : List Call) (i : Nat) (a : Alert)
    (ha : ep.Alerts[i]? = some a) (hdis : a.Enabled = some false) :
    (∀ c ∈ (HandleAlerting env ep r cfg dbg).2, c.alert ≠ i) ∧
    (∀ c ∈ (runCalls calls ep).2, c.alert ≠ i) := by
  have hen : a.IsEnabled = false := by simp [Alert.IsEnabled, hdis]
  exact ⟨no_call_of_sendCount i _ (HandleAlerting_disabled env ep r cfg dbg i a ha hen).2,
    no_call_of_sendCount i _ (disabled_run_silent i a hen calls ep ha)⟩

/-- Instance of C10: a disabled alert with thresholds 1 that is marked triggered and would
remind at every check gets no `Send` call on a failing check, nor over a run of failing and
successful checks. -/
theorem C10_disabled_never_sends_witness :
    (∀ c ∈ (HandleAlerting (worldAt 5 false) disabledEndpoint ⟨false⟩ (some exampleConfig)
      false).2, c.alert ≠ 0) ∧
    (∀ c ∈ (runCalls [failingCall 1, failingCall 2, successCall 3 false, failingCall 4]
      disabledEndpoint).2, c.alert ≠ 0) :=
  C10_disabled_never_sends (worldAt 5 false) disabledEndpoint ⟨false⟩ (some exampleConfig) false
    [failingCall 1, failingCall 2, successCall 3 false, failingCall 4] 0 disabledAlert rfl rfl

/-! ## Theorems: counters, absent config, absent provider, accessors -/

/-- C11: for an endpoint with non-negative counters and a call of `HandleAlerting` with a
config present, a failing result leaves the success streak at 0 and the failure streak at its
old value plus one, a successful result leaves the success streak at its old value plus one
and the failure streak at 0, so exactly one of the two counters is nonzero afterwards; and
from an endpoint with one of its counters at 0, in particular with both at 0, after any
sequence of calls at most one of the two counters is nonzero. -/
theorem C11_streak_counters (env : Env) (ep ep0 : Endpoint) (r : Result) (cfg : Config)
    (dbg : Bool) (calls : List Call)
    (hs : 0 ≤ ep.NumberOfSuccessesInARow) (hf : 0 ≤ ep.NumberOfFailuresInARow)
    (h0 : ep0.NumberOfSuccessesInARow = 0 ∨ ep0.NumberOfFailuresInARow = 0) :
    (HandleAlerting env ep r (some cfg) dbg).1.NumberOfSuccessesInARow
      = (if r.Success then ep.NumberOfSuccessesInARow + 1 else 0) ∧
    (HandleAlerting env ep r (some cfg) dbg).1.NumberOfFailuresInARow
      = (if r.Success then 0 else ep.NumberOfFailuresInARow + 1) ∧
    (((HandleAlerting env ep r (some cfg) dbg).1.NumberOfSuccessesInARow = 0 ∧
        (HandleAlerting env ep r (some cfg) dbg).1.NumberOfFailuresInARow ≠ 0) ∨
      ((HandleAlerting env ep r (some cfg) dbg).1.NumberOfSuccessesInARow ≠ 0 ∧
        (HandleAlerting env ep r (some cfg) dbg).1.NumberOfFailuresInARow = 0)) ∧
    ((runCalls calls ep0).1.NumberOfSuccessesInARow = 0 ∨
      (runCalls calls ep0).1.NumberOfFailuresInARow = 0) := by
  obtain ⟨h1, h2⟩ := HandleAlerting_counters env ep r cfg dbg
  refine ⟨h1, h2, ?_, run_counters_exclusive calls ep0 h0⟩
  rw [h1, h2]
  cases r.Success
  · left
    simp only [Bool.false_eq_true, if_false, true_and]
    omega
  · right
    simp only [if_true, and_true]
    omega

/-- Instance of C11: a failing check after three successes, and a run of mixed outcomes from
a fresh endpoint. -/
theorem C11_streak_counters_witness :
    (HandleAlerting (worldAt 4 false) triggeredEndpoint ⟨false⟩ (some exampleConfig)
      false).1.NumberOfSuccessesInARow = 0 ∧
    (HandleAlerting (worldAt 4 false) triggeredEndpoint ⟨false⟩ (some exampleConfig)
      false).1.NumberOfFailuresInARow = 3 + 1 ∧
    ((runCalls [failingCall 1, successCall 2 false, successCall 3 false, failingCall 4]
        exampleEndpoint).1.NumberOfSuccessesInARow = 0 ∨
      (runCalls [failingCall 1, successCall 2 false, successCall 3 false, failingCall 4]
        exampleEndpoint).1.NumberOfFailuresInARow = 0) :=
  have h := C11_streak_counters (worldAt 4 false) triggeredEndpoint exampleEndpoint ⟨false⟩
    exampleConfig false [failingCall 1, successCall 2 false, successCall 3 false, failingCall 4]
    (by decide) (by decide) (Or.inl rfl)
  ⟨h.1, h.2.1, h.2.2.2⟩

/-- C14: with the alerting config absent (`nil`), `HandleAlerting` returns the endpoint it was
given, counters, `LastReminderSent` and alerts included, and makes no `Send` call, whatever
the result. -/
theorem C14_absent_config_noop (env : Env) (ep : Endpoint) (r : Result) (dbg : Bool) :
    HandleAlerting env ep r none dbg = (ep, []) :=
  rfl

/-- C16: when the config has no provider for the type of an alert, a failing evaluation
leaves the alert (so its `Triggered` flag) and `LastReminderSent` as they were when the alert
was visited and makes no `Send` call for it, whether or not it is enabled and due; over any
number of consecutive failing evaluations the alert stays as it was, no call is made for it,
and the failure streak still grows by one per evaluation. -/
theorem C16_no_provider_never_fires (env : Env) (cfg : Config) (ep : Endpoint) (i : Nat)
    (a : Alert) (calls : List Call) (ha : ep.Alerts[i]? = some a)
    (hnone : cfg.GetAlertingProviderByAlertType a.type = none)
    (hcalls : ∀ c ∈ calls, c.result.Success = false ∧ c.lacksProvider a.type = true) :
    (∀ (f last : Int), triggerAlert env cfg f i last a = ⟨a, last, []⟩) ∧
    (runCalls calls ep).1.Alerts[i]? = some a ∧
    (∀ c ∈ (runCalls calls ep).2, c.alert ≠ i) ∧
    (runCalls calls ep).1.NumberOfFailuresInARow
      = ep.NumberOfFailuresInARow + (calls.length : Int) := by
  obtain ⟨h1, h2, h3⟩ := failing_run_no_provider i a calls ep ha hcalls
  exact ⟨fun f last => triggerAlert_no_provider env cfg f i last a hnone, h1,
    no_call_of_sendCount i _ h2, h3⟩

/-- Instance of C16: an enabled, untriggered alert with threshold 3 after two failures, under
a config without providers: four more failing checks leave it untriggered, make no `Send`
call and bring the failure streak to 6. -/
theorem C16_no_provider_never_fires_witness :
    (runCalls [failingCallNoProvider 3, failingCallNoProvider 4, failingCallNoProvider 5,
      failingCallNoProvider 6] twiceFailedEndpoint).1.Alerts[0]? = some exampleAlert ∧
    (runCalls [failingCallNoProvider 3, failingCallNoProvider 4, failingCallNoProvider 5,
      failingCallNoProvider 6] twiceFailedEndpoint).2 = [] ∧
    (runCalls [failingCallNoProvider 3, failingCallNoProvider 4, failingCallNoProvider 5,
      failingCallNoProvider 6] twiceFailedEndpoint).1.NumberOfFailuresInARow
      = 2 + ((4 : Nat) : Int) :=
  have h := C16_no_provider_never_fires (worldAt 3 false) emptyConfig twiceFailedEndpoint 0
    exampleAlert [failingCallNoProvider 3, failingCallNoProvider 4, failingCallNoProvider 5,
      failingCallNoProvider 6] rfl rfl (by decide)
  ⟨h.2.1, by decide, h.2.2.2⟩

/-- C19: the accessors return the documented default when the field is unset and the stored
value when it is set: `IsEnabled` gives true for an unset `Enabled`, `IsSendingOnResolved`
gives false for an unset `SendOnResolved`, `GetDescription` gives the empty string for an
unset `Description`. -/
theorem C19_accessor_defaults (a : Alert) (b : Bool) (d : String) :
    ({ a with Enabled := none } : Alert).IsEnabled = true ∧
    ({ a with Enabled := some b } : Alert).IsEnabled = b ∧
    ({ a with SendOnResolved := none } : Alert).IsSendingOnResolved = false ∧
    ({ a with SendOnResolved := some b } : Alert).IsSendingOnResolved = b ∧
    ({ a with Description := none } : Alert).GetDescription = "" ∧
    ({ a with Description := some d } : Alert).GetDescription = d :=
  ⟨rfl, rfl, rfl, rfl, rfl, rfl⟩

/-! ## Theorems: transitions of `Triggered` -/

/-- C12, as stated, fails under the mock toggle: with `MOCK_ALERT_PROVIDER` set to `"true"`
and no mock error, the third failed check turns the untriggered alert into a triggered one
although no `Send` call is made; so it is not true that every such transition comes with a
`Send(..., false)` call for the alert. -/
theorem C12_mock_counterexample :
    triggeredAt twiceFailedEndpoint 0 = false ∧
    triggeredAt (HandleAlerting (mockWorldAt 5) twiceFailedEndpoint ⟨false⟩ (some exampleConfig)
      false).1 0 = true ∧
    (HandleAlerting (mockWorldAt 5) twiceFailedEndpoint ⟨false⟩ (some exampleConfig) false).2
      = [] ∧
    ¬ (∀ (env : Env) (ep : Endpoint) (r : Result) (cfg : Option Config) (dbg : Bool) (i : Nat),
        triggeredAt ep i = false → triggeredAt (HandleAlerting env ep r cfg dbg).1 i = true →
        SendCall.mk i false ∈ (HandleAlerting env ep r cfg dbg).2 ∧ env.sendErr i = false) := by
  refine ⟨by decide, by decide, by decide, fun h => ?_⟩
  have h1 := (h (mockWorldAt 5) twiceFailedEndpoint ⟨false⟩ (some exampleConfig) false 0
    (by decide) (by decide)).1
  revert h1
  decide

/-- C12, amended: with the mock toggle off, for every endpoint state, result and config, if
an alert is untriggered before a call of `HandleAlerting` and triggered after it, then the
result was a failure, `Send(..., false)` was called for that alert during the call, and that
call returned no error. -/
theorem C12_triggered_only_after_send (env : Env) (ep : Endpoint) (r : Result)
    (cfg : Option Config) (dbg : Bool) (i : Nat) (hmock : env.mockAlertProvider = false)
    (hbefore : triggeredAt ep i = false)
    (hafter : triggeredAt (HandleAlerting env ep r cfg dbg).1 i = true) :
    r.Success = false ∧ SendCall.mk i false ∈ (HandleAlerting env ep r cfg dbg).2 ∧
      env.sendErr i = false := by
  obtain ⟨a', ha', htr'⟩ := exists_of_triggeredAt _ i hafter
  have hi : i < ep.Alerts.length := by
    have := (List.getElem?_eq_some.1 ha').1
    rwa [HandleAlerting_length] at this
  have ha : ep.Alerts[i]? = some ep.Alerts[i] := List.getElem?_eq_getElem hi
  have htr : (ep.Alerts[i]).Triggered = false := by
    rw [← triggeredAt_of_get ep i _ ha]; exact hbefore
  cases cfg with
  | none =>
    have hsame : triggeredAt ep i = true := hafter
    rw [hbefore] at hsame
    exact absurd hsame (by simp)
  | some cfg =>
    cases hr : r.Success with
    | true =>
      obtain ⟨H1, -, -, -⟩ := HandleAlerting_success_at env ep r cfg dbg i _ hr ha
      rw [triggeredAt_of_get _ i _ H1, resolveAlert_untriggered _ _ _ _ _ htr] at hafter
      exact absurd hafter (by simp)
    | false =>
      obtain ⟨H1, H2, -, -⟩ := HandleAlerting_failure_at env ep r cfg dbg i _ hr ha
      rw [triggeredAt_of_get _ i _ H1] at hafter
      obtain ⟨hcalls, herr⟩ := triggerAlert_triggered_after _ _ _ _ _ _ hmock htr hafter
      refine ⟨rfl, ?_, herr⟩
      have hc := H2 false
      rw [hcalls] at hc
      have hpos : 0 < sendCount i false (HandleAlerting env ep r (some cfg) dbg).2 := by
        rw [hc]; simp [sendCount]
      exact List.count_pos_iff.1 hpos

/-- Instance of C12, amended: the third failed check, with a provider that accepts the
notification, turns the untriggered alert into a triggered one, and the `Send` call is in the
log. -/
theorem C12_triggered_only_after_send_witness :
    triggeredAt (HandleAlerting (worldAt 5 false) twiceFailedEndpoint ⟨false⟩
      (some exampleConfig) false).1 0 = true ∧
    ((⟨false⟩ : Result).Success = false ∧
      SendCall.mk 0 false ∈ (HandleAlerting (worldAt 5 false) twiceFailedEndpoint ⟨false⟩
        (some exampleConfig) false).2 ∧
      (worldAt 5 false).sendErr 0 = false) :=
  ⟨by decide,
    C12_triggered_only_after_send (worldAt 5 false) twiceFailedEndpoint ⟨false⟩
      (some exampleConfig) false 0 rfl (by decide) (by decide)⟩

/-- C13: on every endpoint state reached, by any sequence of calls of `HandleAlerting`, from
an endpoint in which every triggered alert is enabled (as is every endpoint as loaded, where
no alert is triggered: `Triggered` is not read from the configuration), for every alert that
is triggered, after a successful call with a config present that brings the success streak to
a value at least the success threshold of the alert, the alert is the same with `Triggered`
false, whatever `SendOnResolved`, the providers of the config and the answer of `Send` are. -/
theorem C13_resolved_unconditionally (ep0 : Endpoint) (pre : List Call) (c : Call)
    (i : Nat) (a : Alert)
    (hstart : ∀ x ∈ ep0.Alerts, x.Triggered = true → x.IsEnabled = true)
    (ha : (runCalls pre ep0).1.Alerts[i]? = some a) (htr : a.Triggered = true)
    (hr : c.result.Success = true) (hcfg : c.alertingConfig.isSome = true)
    (hth : a.SuccessThreshold ≤ (c.run (runCalls pre ep0).1).1.NumberOfSuccessesInARow) :
    (c.run (runCalls pre ep0).1).1.Alerts[i]? = some { a with Triggered := false } ∧
    triggeredAt (c.run (runCalls pre ep0).1).1 i = false := by
  have hi : i < ep0.Alerts.length := by
    have := (List.getElem?_eq_some.1 ha).1
    rwa [runCalls_length] at this
  have ha0 : ep0.Alerts[i]? = some ep0.Alerts[i] := List.getElem?_eq_getElem hi
  obtain ⟨b', hb', hinv'⟩ := runCalls_triggered_enabled i pre ep0 _ ha0
    (hstart _ (List.getElem_mem hi))
  rw [ha] at hb'
  have hab : a = b' := Option.some.inj hb'
  subst hab
  obtain ⟨cfg, hcfg⟩ := Option.isSome_iff_exists.1 hcfg
  unfold Call.run at hth ⊢
  rw [hcfg] at hth ⊢
  exact resolve_clears_enabled c.env _ c.result cfg c.debug i a ha (hinv' htr) htr hr hth

/-- Instance of C13: from a fresh endpoint, three failed checks trigger the alert and one
successful check follows; the second successful check clears `Triggered` although the config
has no provider and `Send` would return an error. -/
theorem C13_resolved_unconditionally_witness :
    triggeredAt (runCalls [failingCall 1, failingCall 2, failingCall 3, successCall 4 true]
      exampleEndpoint).1 0 = true ∧
    ((successCallNoProvider 5).run
        (runCalls [failingCall 1, failingCall 2, failingCall 3, successCall 4 true]
          exampleEndpoint).1).1.Alerts[0]? = some { exampleAlert with Triggered := false } ∧
    triggeredAt ((successCallNoProvider 5).run
        (runCalls [failingCall 1, failingCall 2, failingCall 3, successCall 4 true]
          exampleEndpoint).1).1 0 = false :=
  have h := C13_resolved_unconditionally exampleEndpoint
    [failingCall 1, failingCall 2, failingCall 3, successCall 4 true] (successCallNoProvider 5)
    0 { exampleAlert with Triggered := true } (by decide) (by decide) rfl rfl rfl (by decide)
  ⟨by decide, h.1, h.2⟩

/-! ## Theorems: continuing past provider errors -/

/-- C17, as stated, fails under the mock toggle: with `MOCK_ALERT_PROVIDER` set to `"true"`,
a failing evaluation attempts no `Send` for an alert that is enabled, untriggered, has its
failure threshold met and has a provider. -/
theorem C17_mock_counterexample :
    twiceFailedEndpoint.Alerts[0]? = some exampleAlert ∧
    dueForInitial exampleConfig (twiceFailedEndpoint.NumberOfFailuresInARow + 1) exampleAlert
      = true ∧
    (HandleAlerting (mockWorldAt 5) twiceFailedEndpoint ⟨false⟩ (some exampleConfig) false).2
      = [] ∧
    ¬ (∀ (env : Env) (ep : Endpoint) (cfg : Config) (dbg : Bool) (i : Nat) (a : Alert),
        ep.Alerts[i]? = some a → a.Triggered = false →
        sendCount i false (HandleAlerting env ep ⟨false⟩ (some cfg) dbg).2
          = (if dueForInitial cfg (ep.NumberOfFailuresInARow + 1) a then 1 else 0)) := by
  refine ⟨rfl, by decide, by decide, fun h => ?_⟩
  have h1 := h (mockWorldAt 5) twiceFailedEndpoint exampleConfig false 0 exampleAlert rfl rfl
  revert h1
  decide

/-- C17, amended: whatever `Send` returns for any alert, (a) in a failing evaluation with the
mock toggle off, `Send(..., false)` is attempted for an untriggered alert exactly when it is
enabled, has its failure threshold at most the new failure streak and has a provider; (b) in
a successful evaluation, whatever the mock toggle, `Send(..., true)` is attempted for an alert
exactly when it is enabled, triggered, has its success threshold at most the new success
streak, is sending on resolved and has a provider; in both, the calls are made in the order
of the alerts, and they all carry `isResolved = false` in (a) and `isResolved = true` in (b).
Each half stands under its own conditions only. -/
theorem C17_continues_after_errors (env : Env) (ep : Endpoint) (cfg : Config) (dbg : Bool) :
    (env.mockAlertProvider = false →
      ∀ (i : Nat) (a : Alert), ep.Alerts[i]? = some a → a.Triggered = false →
        sendCount i false (HandleAlerting env ep ⟨false⟩ (some cfg) dbg).2
          = (if dueForInitial cfg (ep.NumberOfFailuresInARow + 1) a then 1 else 0)) ∧
    (HandleAlerting env ep ⟨false⟩ (some cfg) dbg).2.Pairwise (fun c d => c.alert < d.alert) ∧
    (∀ c ∈ (HandleAlerting env ep ⟨false⟩ (some cfg) dbg).2, c.isResolved = false) ∧
    (∀ (j : Nat) (b : Alert), ep.Alerts[j]? = some b →
      sendCount j true (HandleAlerting env ep ⟨true⟩ (some cfg) dbg).2
        = (if dueForResolved cfg (ep.NumberOfSuccessesInARow + 1) b then 1 else 0)) ∧
    (HandleAlerting env ep ⟨true⟩ (some cfg) dbg).2.Pairwise (fun c d => c.alert < d.alert) ∧
    (∀ c ∈ (HandleAlerting env ep ⟨true⟩ (some cfg) dbg).2, c.isResolved = true) := by
  refine ⟨?_, triggerLoop_calls_pairwise env cfg _ _ _ _,
    triggerLoop_calls_unresolved env cfg _ _ _ _, ?_,
    resolveLoop_calls_pairwise env cfg _ _ _, resolveLoop_calls_resolved env cfg _ _ _⟩
  · intro hmock i a ha htr
    obtain ⟨-, F2, -, -⟩ := HandleAlerting_failure_at env ep ⟨false⟩ cfg dbg i a rfl ha
    rw [F2 false, triggerAlert_untriggered_calls _ _ _ _ _ _ hmock htr]
    split_ifs <;> simp [sendCount]
  · intro j b hb
    obtain ⟨-, S2, -, -⟩ := HandleAlerting_success_at env ep ⟨true⟩ cfg dbg j b rfl hb
    rw [S2 true, resolveAlert_calls]
    split_ifs <;> simp [sendCount]

/-- Instance of C17, amended, with three alerts and a `Send` that always returns an error:
the third failed check sends for each of the three alerts, the erroring `Send` of the first
not stopping the second and the third; a successful check on the triggered alerts, made with
the mock toggle on, sends the resolution for the first and the third, whose success threshold
is 1, and not for the second, whose success threshold is 2. -/
theorem C17_continues_after_errors_witness :
    (sendCount 0 false
        (HandleAlerting (worldAt 5 true) threeAlertEndpoint ⟨false⟩ (some exampleConfig) false).2
        = 1 ∧
      sendCount 1 false
        (HandleAlerting (worldAt 5 true) threeAlertEndpoint ⟨false⟩ (some exampleConfig) false).2
        = 1 ∧
      sendCount 2 false
        (HandleAlerting (worldAt 5 true) threeAlertEndpoint ⟨false⟩ (some exampleConfig) false).2
        = 1) ∧
    (sendCount 0 true
        (HandleAlerting (mockWorldAt 5) threeTriggeredEndpoint ⟨true⟩ (some exampleConfig)
          false).2 = 1 ∧
      sendCount 1 true
        (HandleAlerting (mockWorldAt 5) threeTriggeredEndpoint ⟨true⟩ (some exampleConfig)
          false).2 = 0 ∧
      sendCount 2 true
        (HandleAlerting (mockWorldAt 5) threeTriggeredEndpoint ⟨true⟩ (some exampleConfig)
          false).2 = 1) :=
  have hf := (C17_continues_after_errors (worldAt 5 true) threeAlertEndpoint exampleConfig
    false).1 rfl
  have hs := (C17_continues_after_errors (mockWorldAt 5) threeTriggeredEndpoint exampleConfig
    false).2.2.2.1
  ⟨⟨(hf 0 eagerAlert rfl rfl).trans (by decide), (hf 1 exampleAlert rfl rfl).trans (by decide),
      (hf 2 eagerAlert rfl rfl).trans (by decide)⟩,
    ⟨(hs 0 _ rfl).trans (by decide), (hs 1 _ rfl).trans (by decide),
      (hs 2 _ rfl).trans (by decide)⟩⟩

/-! ## Theorems: the reminder clock -/

/-- C15, as stated, fails under the mock toggle: the initial `Send` succeeds at minute 1, so
`LastReminderSent` is minute 1; the next failing check, at minute 12 and so eleven minutes
later with an interval of ten, is made with `MOCK_ALERT_PROVIDER` set to `"true"` and makes
no `Send` call. -/
theorem C15_mock_counterexample :
    ((failingCall 60000000000).run aboutToRemindEndpoint).2 = [SendCall.mk 0 false] ∧
    (failingCall 60000000000).env.sendErr 0 = false ∧
    ((failingCall 60000000000).run aboutToRemindEndpoint).1.LastReminderSent = 60000000000 ∧
    tenMinutes ≤ (mockFailingCall 720000000000).env.sinceClock 0 - 60000000000 ∧
    ((mockFailingCall 720000000000).run
      ((failingCall 60000000000).run aboutToRemindEndpoint).1).2 = [] ∧
    ¬ (∀ (ep : Endpoint) (a : Alert) (c0 c1 : Call) (t0 : Int), ep.Alerts = [a] →
        a.IsEnabled = true → a.Triggered = false →
        a.FailureThreshold ≤ ep.NumberOfFailuresInARow + 1 →
        0 < a.MinimumRepeatInterval → a.MinimumRepeatInterval ≤ maxDuration →
        c0.result.Success = false → c0.hasProvider a.type = true →
        SendCall.mk 0 false ∈ (c0.run ep).2 → c0.env.sendErr 0 = false →
        c0.env.nowClock 0 = t0 →
        c1.result.Success = false → c1.hasProvider a.type = true →
        a.MinimumRepeatInterval ≤ c1.env.sinceClock 0 - t0 →
        (c1.run (c0.run ep).1).2 = [SendCall.mk 0 false]) := by
  refine ⟨by decide, rfl, by decide, by decide, by decide, fun h => ?_⟩
  have h1 := h aboutToRemindEndpoint { remindingAlert with Triggered := false }
    (failingCall 60000000000) (mockFailingCall 720000000000) 60000000000 rfl rfl rfl
    (by decide) (by decide) (by decide) rfl rfl (by decide) rfl rfl rfl rfl (by decide)
  revert h1
  decide

/-- C15, amended: for an endpoint whose single alert is enabled, untriggered, has its failure
threshold met by the next failure, a reminder interval `d > 0` (a `time.Duration`) and a
provider: if a failing evaluation makes the initial `Send`, which returns no error, with
`time.Now()` reading `t0`, then `LastReminderSent` is `t0` afterwards; the following failing
evaluations at times `t` with `t - t0 < d` make no `Send` call and leave `LastReminderSent`
at `t0`; and the next failing evaluation, at a time `t` with `t - t0 ≥ d` and made with the
mock toggle off, makes exactly one `Send(..., false)` call. -/
theorem C15_reminder_clock (ep : Endpoint) (a : Alert) (c0 c1 : Call) (quiet : List Call)
    (t0 : Int) (halerts : ep.Alerts = [a]) (hen : a.IsEnabled = true)
    (htr : a.Triggered = false) (hth : a.FailureThreshold ≤ ep.NumberOfFailuresInARow + 1)
    (hd : 0 < a.MinimumRepeatInterval) (hmax : a.MinimumRepeatInterval ≤ maxDuration)
    (h0 : c0.result.Success = false ∧ c0.hasProvider a.type = true ∧
      SendCall.mk 0 false ∈ (c0.run ep).2 ∧ c0.env.sendErr 0 = false ∧
      c0.env.nowClock 0 = t0)
    (hquiet : ∀ c ∈ quiet, c.result.Success = false ∧
      c.env.sinceClock 0 - t0 < a.MinimumRepeatInterval)
    (h1 : c1.result.Success = false ∧ c1.hasProvider a.type = true ∧
      c1.env.mockAlertProvider = false ∧
      a.MinimumRepeatInterval ≤ c1.env.sinceClock 0 - t0) :
    (c0.run ep).2 = [SendCall.mk 0 false] ∧
    (c0.run ep).1.LastReminderSent = t0 ∧
    (c0.run ep).1.Alerts = [{ a with Triggered := true }] ∧
    (runCalls quiet (c0.run ep).1).2 = [] ∧
    (runCalls quiet (c0.run ep).1).1.LastReminderSent = t0 ∧
    (c1.run (runCalls quiet (c0.run ep).1).1).2 = [SendCall.mk 0 false] := by
  obtain ⟨hr0, hprov0, hsent0, herr0, hnow0⟩ := h0
  obtain ⟨cfg0, hcfg0, hp0⟩ := (Call.hasProvider_iff c0 a.type).1 hprov0
  obtain ⟨hr1, hprov1, hmock1, hdue1⟩ := h1
  obtain ⟨cfg1, hcfg1, hp1⟩ := (Call.hasProvider_iff c1 a.type).1 hprov1
  have hmock0 : c0.env.mockAlertProvider = false := by
    apply triggerAlert_called_mock_off c0.env cfg0 (ep.NumberOfFailuresInARow + 1) 0
      ep.LastReminderSent a
    apply List.ne_nil_of_mem (a := SendCall.mk 0 false)
    simpa [Call.run, hcfg0, HandleAlerting, hr0, handleAlertsToTrigger, halerts, triggerLoop]
      using hsent0
  have hstep0 : c0.run ep =
      ({ ep with NumberOfSuccessesInARow := 0,
                 NumberOfFailuresInARow := ep.NumberOfFailuresInARow + 1,
                 Alerts := [{ a with Triggered := true }],
                 LastReminderSent := t0 }, [SendCall.mk 0 false]) := by
    simp only [Call.run, hcfg0, HandleAlerting, hr0, handleAlertsToTrigger, halerts,
      triggerLoop, Bool.false_eq_true, if_false, List.append_nil,
      triggerAlert_initial _ _ _ _ _ _ hen hth htr hp0 hmock0, herr0, hnow0]
  rw [hstep0]
  obtain ⟨Q1, Q2, Q3, Q4⟩ := quiet_run { a with Triggered := true } t0 rfl hd hmax quiet
    { ep with NumberOfSuccessesInARow := 0,
              NumberOfFailuresInARow := ep.NumberOfFailuresInARow + 1,
              Alerts := [{ a with Triggered := true }],
              LastReminderSent := t0 } rfl rfl (by simp only; omega) hquiet
  refine ⟨rfl, rfl, rfl, Q1, Q3, ?_⟩
  simp only [Call.run, hcfg1, HandleAlerting, hr1, handleAlertsToTrigger, Q2, Q3, triggerLoop,
    Bool.false_eq_true, if_false, List.append_nil]
  rw [triggerAlert_reminder _ _ _ _ _ _ (by simpa using hen) Q4 rfl hd (by simpa using hp1)
    hmock1, if_pos ((Since_ge_iff _ _ _ hd hmax).2 hdue1)]
  cases c1.env.sendErr 0 <;> rfl

/-- Instance of C15, amended, with a ten minute interval: the initial notification goes out at minute
1; failing checks at minutes 5 and 10 send nothing; the failing check at minute 11 sends
one reminder. -/
theorem C15_reminder_clock_witness :
    ((failingCall 60000000000).run aboutToRemindEndpoint).1.LastReminderSent = 60000000000 ∧
    (runCalls [failingCall 300000000000, failingCall 600000000000]
      ((failingCall 60000000000).run aboutToRemindEndpoint).1).2 = [] ∧
    ((failingCall 660000000000).run
      (runCalls [failingCall 300000000000, failingCall 600000000000]
        ((failingCall 60000000000).run aboutToRemindEndpoint).1).1).2 = [SendCall.mk 0 false] :=
  have h := C15_reminder_clock aboutToRemindEndpoint { remindingAlert with Triggered := false }
    (failingCall 60000000000) (failingCall 660000000000)
    [failingCall 300000000000, failingCall 600000000000] 60000000000 rfl rfl rfl (by decide)
    (by decide) (by decide) (by decide) (by decide) (by decide)
  ⟨h.2.1, h.2.2.2.1, h.2.2.2.2.2⟩

/-! ## Theorems: no repeated notification -/

/-- C18: for an alert without reminder interval, over every sequence of calls of
`HandleAlerting`, whatever the outcomes and the answers of `Send`: a call that makes
`Send(..., false)` for the alert starts from a state where the alert is not triggered; and if
a call makes `Send(..., false)` for the alert and gets no error, the alert is triggered after
it, and any later call that makes `Send(..., false)` for the alert is preceded, after the
first one, by a successful evaluation before which the alert is triggered and after which it
is not. -/
theorem C18_no_send_while_triggered (ep : Endpoint) (i : Nat) (a : Alert)
    (pre0 pre mid : List Call) (c0 c1 c2 : Call)
    (ha : ep.Alerts[i]? = some a) (hint : a.MinimumRepeatInterval = 0)
    (h0 : SendCall.mk i false ∈ (c0.run (runCalls pre0 ep).1).2)
    (h1 : SendCall.mk i false ∈ (c1.run (runCalls pre ep).1).2)
    (hok : c1.env.sendErr i = false)
    (h2 : SendCall.mk i false ∈
      (c2.run (runCalls mid (c1.run (runCalls pre ep).1).1).1).2) :
    triggeredAt (runCalls pre0 ep).1 i = false ∧
    triggeredAt (c1.run (runCalls pre ep).1).1 i = true ∧
    ∃ m1 r m2, mid = m1 ++ r :: m2 ∧ r.result.Success = true ∧
      triggeredAt (runCalls m1 (c1.run (runCalls pre ep).1).1).1 i = true ∧
      triggeredAt (r.run (runCalls m1 (c1.run (runCalls pre ep).1).1).1).1 i = false := by
  have key : ∀ (c : Call) (s : Endpoint) (t : Bool),
      s.Alerts[i]? = some { a with Triggered := t } → SendCall.mk i false ∈ (c.run s).2 →
      triggeredAt s i = false := by
    intro c s t hs hsend
    rw [triggeredAt_of_get s i _ hs]
    cases t with
    | false => rfl
    | true =>
      have h := (Call.run_while_triggered c s i _ hs rfl (by simp [hint])).1
      have hpos : 0 < sendCount i false (c.run s).2 := List.count_pos_iff.2 hsend
      omega
  obtain ⟨t0, ht0⟩ := runCalls_same_rule i pre0 ep a ha
  obtain ⟨t, ht⟩ := runCalls_same_rule i pre ep a ha
  have hafter := Call.run_sent_ok c1 _ i _ ht h1 hok
  obtain ⟨t1, ht1⟩ := Call.run_same_rule c1 _ i _ ht
  have ht1' : t1 = true := by
    rw [triggeredAt_of_get _ i _ ht1] at hafter
    exact hafter
  subst ht1'
  refine ⟨key c0 _ t0 ht0 h0, hafter, ?_⟩
  rcases reset_in_run i mid _ _ ht1 rfl (by simp [hint]) with h | h
  · obtain ⟨t2, ht2⟩ := runCalls_same_rule i mid _ _ ht1
    have := key c2 _ t2 ht2 h2
    rw [h] at this
    exact absurd this (by simp)
  · exact h

/-- Instance of C18 with thresholds 1: the first failed check notifies; of the three checks
that follow, the second is a success and resets the alert; the next failed check notifies
again. -/
theorem C18_no_send_while_triggered_witness :
    SendCall.mk 0 false ∈ ((failingCall 1).run (runCalls [] eagerEndpoint).1).2 ∧
    SendCall.mk 0 false ∈ ((failingCall 5).run
      (runCalls [failingCall 2, successCall 3 false, successCall 4 false]
        ((failingCall 1).run (runCalls [] eagerEndpoint).1).1).1).2 ∧
    (triggeredAt (runCalls [] eagerEndpoint).1 0 = false ∧
      triggeredAt ((failingCall 1).run (runCalls [] eagerEndpoint).1).1 0 = true ∧
      ∃ m1 r m2, [failingCall 2, successCall 3 false, successCall 4 false] = m1 ++ r :: m2 ∧
        r.result.Success = true ∧
        triggeredAt (runCalls m1 ((failingCall 1).run (runCalls [] eagerEndpoint).1).1).1 0
          = true ∧
        triggeredAt (r.run
          (runCalls m1 ((failingCall 1).run (runCalls [] eagerEndpoint).1).1).1).1 0 = false) :=
  ⟨by decide, by decide,
    C18_no_send_while_triggered eagerEndpoint 0 eagerAlert [] []
      [failingCall 2, successCall 3 false, successCall 4 false] (failingCall 1) (failingCall 1)
      (failingCall 5) rfl rfl (by decide) (by decide) rfl (by decide)⟩

/-! ## Theorems: the shared reminder clock -/

/-- C20: in a failing evaluation whose clock readings are all `now`, once a `Send` has
returned no error for the alert at position `j`, no `Send` is made for a triggered alert at a
later position `k`, so no reminder is sent for it, whatever its interval and the value of
`LastReminderSent` before the evaluation; consequently two reminder `Send` calls that return
no error in one evaluation are for the same alert. -/
theorem C20_shared_reminder_clock (env : Env) (cfg : Config) (ep : Endpoint) (dbg : Bool)
    (now : Int) (j k : Nat) (b : Alert)
    (hsince : ∀ n, env.sinceClock n = now) (hnow : ∀ n, env.nowClock n = now)
    (hsent : SendCall.mk j false ∈ (HandleAlerting env ep ⟨false⟩ (some cfg) dbg).2)
    (hok : env.sendErr j = false) (hjk : j < k) (hb : ep.Alerts[k]? = some b)
    (htr : b.Triggered = true) :
    SendCall.mk k false ∉ (HandleAlerting env ep ⟨false⟩ (some cfg) dbg).2 ∧
    (∀ (p q : Nat) (ap aq : Alert), ep.Alerts[p]? = some ap → ep.Alerts[q]? = some aq →
      ap.Triggered = true → aq.Triggered = true →
      SendCall.mk p false ∈ (HandleAlerting env ep ⟨false⟩ (some cfg) dbg).2 →
      SendCall.mk q false ∈ (HandleAlerting env ep ⟨false⟩ (some cfg) dbg).2 →
      env.sendErr p = false → env.sendErr q = false → p = q) := by
  have key : ∀ (p q : Nat) (aq : Alert), p < q → ep.Alerts[q]? = some aq →
      aq.Triggered = true →
      SendCall.mk p false ∈ (HandleAlerting env ep ⟨false⟩ (some cfg) dbg).2 →
      env.sendErr p = false →
      SendCall.mk q false ∉ (HandleAlerting env ep ⟨false⟩ (some cfg) dbg).2 := by
    intro p q aq hpq haq hq hp herr hmem
    have h := triggerLoop_after_success env cfg (ep.NumberOfFailuresInARow + 1) now hsince hnow
      ep.Alerts 0 ep.LastReminderSent p q aq hpq haq hq
      (by simpa [HandleAlerting, handleAlertsToTrigger] using hp) (by simpa using herr)
    have hpos : 0 < sendCount q false (HandleAlerting env ep ⟨false⟩ (some cfg) dbg).2 :=
      List.count_pos_iff.2 hmem
    simp only [HandleAlerting, handleAlertsToTrigger, Bool.false_eq_true, if_false] at hpos
    simp only [Nat.zero_add] at h
    omega
  refine ⟨key j k b hjk hb htr hsent hok, ?_⟩
  intro p q ap aq hap haq hptr hqtr hp hq hperr hqerr
  rcases Nat.lt_trichotomy p q with h | h | h
  · exact absurd hq (key p q aq h haq hqtr hp hperr)
  · exact h
  · exact absurd hp (key q p ap h hap hptr hq hqerr)

/-- Instance of C20: two triggered alerts remind every ten minutes and the last notification
is eleven minutes old; the failing check sends the reminder of the first alert only. -/
theorem C20_shared_reminder_clock_witness :
    (HandleAlerting (worldAt 660000000000 false) twoRemindersEndpoint ⟨false⟩
      (some exampleConfig) false).2 = [SendCall.mk 0 false] ∧
    SendCall.mk 1 false ∉ (HandleAlerting (worldAt 660000000000 false) twoRemindersEndpoint
      ⟨false⟩ (some exampleConfig) false).2 :=
  ⟨by decide,
    (C20_shared_reminder_clock (worldAt 660000000000 false) exampleConfig twoRemindersEndpoint
      false 660000000000 0 1 remindingAlert (fun _ => rfl) (fun _ => rfl) (by decide) rfl
      (by decide) rfl rfl).1⟩

end Gatus
